import Mathlib

/-!
Verification development for the CNS IPAM invoker
(`cni/network/invoker_cns.go`) of the azure-container-networking
repository.

The Go code is shallowly embedded: pure helpers become Lean functions,
the mutable options map and the call side effects (backend HTTP calls,
host programming, deferred-delete enqueue) become explicit state
threaded through the functions.  Machine integers are `Nat`.  Strings
are Lean strings; the parsing routines of Go's `net` standard library
(`net.ParseIP`, `net.ParseCIDR`, `net.ParseMAC`), which are not part of
this repository, are modelled below with the behaviour the invoker
relies on: dotted-quad IPv4, hex-group IPv6 with a single `::`
compression, CIDR = address `/` decimal length bounded by the family
width, MAC = six colon-separated hex octet pairs.  (IPv4-mapped IPv6
forms are not modelled; none of the inputs considered here use them.)
-/

namespace AzureCNI

/-! ## Model of the Go `net` library types used by the invoker -/

/-- An IP address: IPv4 as a value below `2^32`, IPv6 as a value below
`2^128`. Go's `net.IP` is a byte slice; `To4() != nil` corresponds to
the `v4` constructor here. -/
inductive IPAddr where
  | v4 (n : Nat)
  | v6 (n : Nat)
deriving DecidableEq, Repr

/-- Go `ip.To4() != nil` for addresses produced by the parser model. -/
def IPAddr.isV4 : IPAddr → Bool
  | .v4 _ => true
  | .v6 _ => false

/-- Go `net.IPNet`: an address together with a mask, kept as a mask
length. -/
structure GoIPNet where
  ip : IPAddr
  maskLen : Nat
deriving DecidableEq, Repr

/-- Split a character list at every occurrence of `c` (model of
splitting a Go string on a one-character separator). -/
def splitOnChar (c : Char) : List Char → List (List Char)
  | [] => [[]]
  | x :: xs =>
    let r := splitOnChar c xs
    if x == c then [] :: r
    else
      match r with
      | [] => [[x]]
      | g :: gs => (x :: g) :: gs

/-- Decimal digit value. -/
def decDigit (c : Char) : Option Nat :=
  if c.isDigit then some (c.toNat - 48) else none

/-- Hexadecimal digit value (both cases). -/
def hexDigit (c : Char) : Option Nat :=
  if c.isDigit then some (c.toNat - 48)
  else if 'a' ≤ c ∧ c ≤ 'f' then some (c.toNat - 87)
  else if 'A' ≤ c ∧ c ≤ 'F' then some (c.toNat - 55)
  else none

/-- Parse a non-empty all-digit character list as a decimal number. -/
def parseDec : List Char → Option Nat
  | [] => none
  | cs => cs.foldlM (fun a c => (decDigit c).map fun d => a * 10 + d) 0

/-- One dotted-quad octet: decimal, no leading zero (as in Go since
1.17), at most 255. -/
def parseV4Octet (cs : List Char) : Option Nat :=
  match cs with
  | [] => none
  | c :: rest =>
    if c == '0' ∧ rest ≠ [] then none
    else
      match parseDec (c :: rest) with
      | some n => if n ≤ 255 then some n else none
      | none => none

/-- Model of Go IPv4 textual parsing: exactly four dotted octets. -/
def parseIPv4Chars (cs : List Char) : Option Nat :=
  match splitOnChar '.' cs with
  | [a, b, c, d] => do
    let a ← parseV4Octet a
    let b ← parseV4Octet b
    let c ← parseV4Octet c
    let d ← parseV4Octet d
    pure (((a * 256 + b) * 256 + c) * 256 + d)
  | _ => none

/-- One IPv6 hex group: one to four hex digits. -/
def parseHexGroup (cs : List Char) : Option Nat :=
  match cs with
  | [] => none
  | _ =>
    if cs.length ≤ 4 then
      cs.foldlM (fun a c => (hexDigit c).map fun d => a * 16 + d) 0
    else none

/-- Combine 16-bit groups into the 128-bit value. -/
def groupsToNat (gs : List Nat) : Nat :=
  gs.foldl (fun acc g => acc * 65536 + g) 0

/-- Find the first `::` in a character list, returning the parts before
and after it. -/
def findDoubleColon : List Char → Option (List Char × List Char)
  | ':' :: ':' :: rest => some ([], rest)
  | x :: xs => (findDoubleColon xs).map fun p => (x :: p.1, p.2)
  | [] => none

/-- Parse a colon-separated list of hex groups (no compression). -/
def parseGroups (cs : List Char) : Option (List Nat) :=
  if cs = [] then some []
  else (splitOnChar ':' cs).mapM parseHexGroup

/-- Model of Go IPv6 textual parsing: eight hex groups, or two runs of
groups joined by a single `::` standing for at least one zero group. -/
def parseIPv6Chars (cs : List Char) : Option Nat :=
  match findDoubleColon cs with
  | none => do
    let gs ← parseGroups cs
    if gs.length = 8 then pure (groupsToNat gs) else none
  | some (l, r) =>
    if findDoubleColon r ≠ none then none
    else do
      let lg ← parseGroups l
      let rg ← parseGroups r
      if lg.length + rg.length ≤ 7 then
        pure (groupsToNat (lg ++ List.replicate (8 - lg.length - rg.length) 0 ++ rg))
      else none

/-- Model of Go `net.ParseIP`: `none` stands for Go's `nil` result. -/
def parseIP (s : String) : Option IPAddr :=
  match parseIPv4Chars s.toList with
  | some n => some (.v4 n)
  | none => (parseIPv6Chars s.toList).map .v6

/-- Width in bits of the address family. -/
def IPAddr.width : IPAddr → Nat
  | .v4 _ => 32
  | .v6 _ => 128

/-- Clear the low `width - p` bits (Go's `ip.Mask(mask)`). -/
def maskIP : IPAddr → Nat → IPAddr
  | .v4 n, p => .v4 (n - n % 2 ^ (32 - p))
  | .v6 n, p => .v6 (n - n % 2 ^ (128 - p))

/-- Model of Go `net.ParseCIDR`: returns the parsed address and the
masked network, or `none` on any parse error (including a prefix length
exceeding the family width). -/
def parseCIDR (s : String) : Option (IPAddr × GoIPNet) :=
  match splitOnChar '/' s.toList with
  | [ipPart, lenPart] => do
    let ip ←
      match parseIPv4Chars ipPart with
      | some n => some (IPAddr.v4 n)
      | none => (parseIPv6Chars ipPart).map IPAddr.v6
    let l ←
      match lenPart with
      | [] => none
      | c :: rest =>
        if c == '0' ∧ rest ≠ [] then none else parseDec (c :: rest)
    if l ≤ ip.width then pure (ip, ⟨maskIP ip l, l⟩) else none
  | _ => none

/-- Model of Go `net.ParseMAC` restricted to the colon-separated
six-octet form used by the backend (`aa:bb:cc:dd:ee:ff`). -/
def parseMAC (s : String) : Option (List Nat) :=
  match splitOnChar ':' s.toList with
  | gs =>
    if gs.length = 6 then
      gs.mapM fun g =>
        match g with
        | [h, l] => do
          let h ← hexDigit h
          let l ← hexDigit l
          pure (h * 16 + l)
        | _ => none
    else none

/-- Render an address (for iptables match strings); IPv6 is rendered as
eight uncompressed hex groups, which is deterministic even if not the
canonical Go form. -/
def ipToString : IPAddr → String
  | .v4 n =>
    toString (n / 16777216 % 256) ++ "." ++ toString (n / 65536 % 256) ++ "." ++
      toString (n / 256 % 256) ++ "." ++ toString (n % 256)
  | .v6 n =>
    String.intercalate ":"
      ((List.range 8).map fun i => String.mk (Nat.toDigits 16 (n / 2 ^ (16 * (7 - i)) % 65536)))

/-- Model of Go `(*net.IPNet).String()`. -/
def netToString (net : GoIPNet) : String :=
  ipToString net.ip ++ "/" ++ toString net.maskLen

/-! ## Data model of the CNS response (`cns` package types as used by
the invoker) -/

/-- `cns.IPSubnet`. -/
structure IPSubnet where
  ipAddress : String
  prefixLength : Nat
deriving DecidableEq, Repr

/-- `cns.IPConfiguration`-like network-container primary IP config as
read by the invoker (`NetworkContainerPrimaryIPConfig`). -/
structure NCPrimaryIPConfig where
  ipSubnet : IPSubnet
  gatewayIPAddress : String
deriving DecidableEq, Repr

/-- `cns.HostIPInfo` (`HostPrimaryIPInfo`). -/
structure HostIPInfo where
  subnet : String
  primaryIP : String
  gateway : String
deriving DecidableEq, Repr

/-- `cns.Route`: a backend-native route descriptor. -/
structure CNSRoute where
  ipAddress : String
  gatewayIPAddress : String
deriving DecidableEq, Repr

/-- `cns.PodIPConfig` as read through `PodIPConfig.IPAddress` and used
by `GetIPNet`. -/
structure PodIPConfig where
  ipAddress : String
  prefixLength : Nat
deriving DecidableEq, Repr

/-- `cns.PodIpInfo`: one allocation in the backend response. -/
structure PodIpInfo where
  podIPConfig : PodIPConfig
  networkContainerPrimaryIPConfig : NCPrimaryIPConfig
  hostPrimaryIPInfo : HostIPInfo
  addressType : String
  macAddress : String
  isDefaultInterface : Bool
  routes : List CNSRoute
deriving DecidableEq, Repr

/-- `cns.IPConfigsResponse` restricted to the field the invoker reads
after a successful request. -/
structure IPConfigsResponse where
  podIPInfo : List PodIpInfo
deriving DecidableEq, Repr

/-- Modelled from the spec: the `cns.Secondary` address-type constant
(the `cns` package is not under `src/`; the spec's address types are
{default, secondary} and the invoker switches on this constant). -/
def cnsSecondary : String := "Secondary"

/-- Modelled from the spec: `PodIPConfig.GetIPNet` (defined in the
`cns` package, not under `src/`): parses the allocation's address
together with its prefix length, as the secondary branch requires a
parsed address and mask. -/
def podIPConfigGetIPNet (c : PodIPConfig) : Option (IPAddr × GoIPNet) :=
  parseCIDR (c.ipAddress ++ "/" ++ toString c.prefixLength)

/-- `IPResultInfo` (invoker_cns.go lines 39-51); `ncSubnetPrefix` keeps
its Go meaning (a prefix length). -/
structure IPResultInfo where
  podIPAddress : String
  ncSubnetPrefixLength : Nat
  ncPrimaryIP : String
  ncGatewayIPAddress : String
  hostSubnet : String
  hostPrimaryIP : String
  hostGateway : String
  addressType : String
  macAddress : String
  isDefaultInterface : Bool
  routes : List CNSRoute
deriving DecidableEq, Repr

/-- Construction of `IPResultInfo` from one `PodIpInfo`
(invoker_cns.go lines 130-142). -/
def mkIPResultInfo (p : PodIpInfo) : IPResultInfo :=
  { podIPAddress := p.podIPConfig.ipAddress
    ncSubnetPrefixLength := p.networkContainerPrimaryIPConfig.ipSubnet.prefixLength
    ncPrimaryIP := p.networkContainerPrimaryIPConfig.ipSubnet.ipAddress
    ncGatewayIPAddress := p.networkContainerPrimaryIPConfig.gatewayIPAddress
    hostSubnet := p.hostPrimaryIPInfo.subnet
    hostPrimaryIP := p.hostPrimaryIPInfo.primaryIP
    hostGateway := p.hostPrimaryIPInfo.gateway
    addressType := p.addressType
    macAddress := p.macAddress
    isDefaultInterface := p.isDefaultInterface
    routes := p.routes }

/-! ## CNI result types (as used by the invoker) -/

/-- `cniTypesCurr.IPConfig`: address plus optional gateway (Go allows a
nil gateway). -/
structure CNIIPConfig where
  address : GoIPNet
  gateway : Option IPAddr
deriving DecidableEq, Repr

/-- `cniTypes.Route`. -/
structure CNIRoute where
  dst : GoIPNet
  gw : Option IPAddr
deriving DecidableEq, Repr

/-- `cniTypesCurr.Result` restricted to the fields the invoker writes:
IPs, interfaces (kept as their MAC strings) and routes. -/
structure CurrResult where
  ips : List CNIIPConfig
  interfaces : List String
  routes : List CNIRoute
deriving DecidableEq, Repr

/-- The zero `cniTypesCurr.Result` (`&cniTypesCurr.Result{}`). -/
def emptyCurrResult : CurrResult := ⟨[], [], []⟩

/-- `CNIResult` of the cni/network package as constructed by the
invoker: a possibly-nil inner result pointer plus metadata. -/
structure CNIResult where
  ipResult : Option CurrResult
  addressType : String
  macAddress : Option (List Nat)
  isDefaultInterface : Bool
deriving DecidableEq, Repr

/-- Go zero value of `CNIResult`. -/
def emptyCNIResult : CNIResult := ⟨none, "", none, false⟩

/-- `IPAMAddResult` as the invoker populates it. `hostSubnetPrefix`
keeps its Go name; `none` is its zero value before assignment. -/
structure IPAMAddResult where
  defaultCniResult : CNIResult
  cniResults : List CNIResult
  hostSubnetPrefix : Option GoIPNet
  ipv6Enabled : Bool
deriving DecidableEq, Repr

/-- Go `IPAMAddResult{}`. -/
def emptyIPAMAddResult : IPAMAddResult := ⟨emptyCNIResult, [], none, false⟩

/-! ## The options map

Go type `map[string]interface{}`; the invoker stores strings
(`snat-ip`), route lists (`routes`) and iptables command lists
(`iptables-commands`) in it.  Modelled as an association list with
replace-on-write semantics. -/

/-- Modelled from the spec: `network.SNATIPKey` (the `network` package
constants are not under `src/`; the spec names the key `snat-ip`). -/
def SNATIPKey : String := "snat-ip"

/-- Modelled from the spec: `network.RoutesKey`. -/
def RoutesKey : String := "routes"

/-- Modelled from the spec: `network.IPTablesKey`. -/
def IPTablesKey : String := "iptables-commands"

/-- `network.RouteInfo` as written into `options[routes]`. -/
structure RouteInfo where
  dst : GoIPNet
  gw : IPAddr
deriving DecidableEq, Repr

/-- An iptables command descriptor (Go `iptables.IPTableEntry`,
modelled from the spec: deferred rule-installation requests for create
chain, append rule, insert rule). -/
inductive IPTableEntry where
  | createChain (version tbl chain : String)
  | appendRule (version tbl chain matchSpec target : String)
  | insertRule (version tbl chain matchSpec target : String)
deriving DecidableEq, Repr

/-- A value stored in the options map. -/
inductive OptVal where
  | str (s : String)
  | routeInfos (rs : List RouteInfo)
  | iptEntries (es : List IPTableEntry)
deriving DecidableEq, Repr

/-- The options map. -/
def OptionsMap := List (String × OptVal)
deriving DecidableEq, Repr

/-- Go map assignment `options[k] = v`. -/
def setOpt : OptionsMap → String → OptVal → OptionsMap
  | [], k, v => [(k, v)]
  | (k', v') :: rest, k, v =>
    if k' = k then (k, v) :: rest else (k', v') :: setOpt rest k v

/-- Go map read `options[k]`. -/
def lookupOpt : OptionsMap → String → Option OptVal
  | [], _ => none
  | (k', v') :: rest, k => if k' = k then some v' else lookupOpt rest k

/-! ## Errors -/

/-- Typed backend (CNS client) errors. `unsupportedAPI` and
`connectionFailure` are the sentinels the invoker distinguishes
(`cnscli.IsUnsupportedAPI`, `cnscli.ConnectionFailureErr`); `other`
covers every remaining backend error. -/
inductive CNSErr where
  | unsupportedAPI
  | connectionFailure
  | other (msg : String)
deriving DecidableEq, Repr

/-- Modelled from the spec: `cnscli.IsUnsupportedAPI` (the cns/client
package is not under `src/`): recognises exactly the UnsupportedAPI
sentinel. -/
def IsUnsupportedAPI : CNSErr → Bool
  | .unsupportedAPI => true
  | _ => false

/-- A `getRoutes` parse failure, carrying the offending entry's text
(as the wrapped `fmt.Errorf` messages do). -/
inductive RouteErr where
  | badDst (s : String)
  | badGw (s : String)
deriving DecidableEq, Repr

/-- The invoker's error values, one constructor per distinct return
site. -/
inductive InvokerErr where
  | emptyCNIArgs
  | requestIPsFailed (e : CNSErr)
  | requestIPAddressFailed (e : CNSErr)
  | parseIPFailed (s : String)
  | invalidMac (s : String)
  | invalidGateway (s : String)
  | noPodIP
  | overlayGatewayErr
  | routeErr (e : RouteErr)
  | hostSubnetParse (s : String)
  | hostIPInvalid (s : String)
  | hostGatewayInvalid (s : String)
  | releaseFailed (e : CNSErr)
  | releaseIPAddressFailed (e : CNSErr)
deriving DecidableEq, Repr

/-! ## Route translation (`getRoutes`, invoker_cns.go lines 414-435) -/

/-- `getRoutes`: parse each destination as a CIDR (keeping the masked
network) and each gateway as an IP, failing on the first entry that
does not parse. -/
def getRoutes : List CNSRoute → Except RouteErr (List CNIRoute)
  | [] => .ok []
  | r :: rest =>
    match parseCIDR r.ipAddress with
    | none => .error (.badDst r.ipAddress)
    | some (_, dst) =>
      match parseIP r.gatewayIPAddress with
      | none => .error (.badGw r.gatewayIPAddress)
      | some gw => (getRoutes rest).map fun l => ⟨dst, some gw⟩ :: l

/-! ## Host programming (`setHostOptions`, invoker_cns.go lines
289-342)

The `iptables` package is not under `src/`.  Modelled from the spec:
the contract for each rule is check-then-install against the live
ruleset; the five checks and the command constructors below mirror the
five conditional appends of `setHostOptions`.  A ruleset is the set of
chains and rules currently installed. -/

/-- An installed iptables rule. -/
structure IPTableRule where
  version : String
  tbl : String
  chain : String
  matchSpec : String
  target : String
deriving DecidableEq, Repr

/-- The live iptables state queried by `ChainExists` / `RuleExists`. -/
structure Ruleset where
  chains : List (String × String × String)
  rules : List IPTableRule
deriving DecidableEq, Repr

/-- Modelled from the spec: `iptables.ChainExists`. -/
def chainExists (rs : Ruleset) (v t c : String) : Bool :=
  decide ((v, t, c) ∈ rs.chains)

/-- Modelled from the spec: `iptables.RuleExists`. -/
def ruleExists (rs : Ruleset) (v t c m j : String) : Bool :=
  decide ((⟨v, t, c, m, j⟩ : IPTableRule) ∈ rs.rules)

/-- Executing one deferred iptables command against the live ruleset
(`-N`, `-A`, `-I`). -/
def applyEntry (rs : Ruleset) : IPTableEntry → Ruleset
  | .createChain v t c => { rs with chains := rs.chains ++ [(v, t, c)] }
  | .appendRule v t c m j => { rs with rules := rs.rules ++ [⟨v, t, c, m, j⟩] }
  | .insertRule v t c m j => { rs with rules := ⟨v, t, c, m, j⟩ :: rs.rules }

/-- Executing a command list in order. -/
def applyEntries (rs : Ruleset) (es : List IPTableEntry) : Ruleset :=
  es.foldl applyEntry rs

/-- Modelled from the spec: `iptables` package constants (values are
the conventional iptables names; only their identities matter). -/
def iptablesV4 : String := "V4"

/-- Modelled from the spec: the NAT table name. -/
def natTable : String := "nat"

/-- Modelled from the spec: the dedicated SNAT chain (`CNI-SWIFT` in
the spec's naming). -/
def swiftChain : String := "SWIFT"

/-- Modelled from the spec: the POSTROUTING chain name. -/
def postroutingChain : String := "POSTROUTING"

/-- Modelled from the spec: the SNAT jump target. -/
def snatTarget : String := "SNAT"

/-- Modelled from the spec: protocol and port constants. -/
def udpProto : String := "udp"

/-- Modelled from the spec: the TCP protocol name. -/
def tcpProto : String := "tcp"

/-- Modelled from the spec: the DNS port. -/
def dnsPort : Nat := 53

/-- Modelled from the spec: the HTTP port used by IMDS. -/
def httpPort : Nat := 80

/-- Modelled from the spec: `networkutils.AzureDNS`, the infra-DNS
address. -/
def azureDNS : String := "168.63.129.16"

/-- Modelled from the spec: `networkutils.AzureIMDS`, the
instance-metadata address. -/
def azureIMDS : String := "169.254.169.254"

/-- The `fmt.Sprintf` building the addrtype match of lines 310-312. -/
def addrtypeMatch (subnet dst proto : String) (port : Nat) : String :=
  " -m addrtype ! --dst-type local -s " ++ subnet ++ " -d " ++ dst ++
    " -p " ++ proto ++ " --dport " ++ toString port

/-- The five check-then-install blocks of `setHostOptions` (lines
318-337), as the command list written to `options[iptables-commands]`. -/
def hostProgCmds (rs : Ruleset) (ncSubnetNet : GoIPNet) (info : IPResultInfo) :
    List IPTableEntry :=
  let azureDNSUDPMatch := addrtypeMatch (netToString ncSubnetNet) azureDNS udpProto dnsPort
  let azureDNSTCPMatch := addrtypeMatch (netToString ncSubnetNet) azureDNS tcpProto dnsPort
  let azureIMDSMatch := addrtypeMatch (netToString ncSubnetNet) azureIMDS tcpProto httpPort
  let snatPrimaryIPJump := snatTarget ++ " --to " ++ info.ncPrimaryIP
  let snatHostIPJump := snatTarget ++ " --to " ++ info.hostPrimaryIP
  (if chainExists rs iptablesV4 natTable swiftChain then []
   else [.createChain iptablesV4 natTable swiftChain]) ++
  (if ruleExists rs iptablesV4 natTable postroutingChain "" swiftChain then []
   else [.appendRule iptablesV4 natTable postroutingChain "" swiftChain]) ++
  (if ruleExists rs iptablesV4 natTable swiftChain azureDNSUDPMatch snatPrimaryIPJump then []
   else [.insertRule iptablesV4 natTable swiftChain azureDNSUDPMatch snatPrimaryIPJump]) ++
  (if ruleExists rs iptablesV4 natTable swiftChain azureDNSTCPMatch snatPrimaryIPJump then []
   else [.insertRule iptablesV4 natTable swiftChain azureDNSTCPMatch snatPrimaryIPJump]) ++
  (if ruleExists rs iptablesV4 natTable swiftChain azureIMDSMatch snatHostIPJump then []
   else [.insertRule iptablesV4 natTable swiftChain azureIMDSMatch snatHostIPJump])

/-- `setHostOptions` (lines 289-342): parse the host primary IP and
host gateway, write `options[routes]`, then write the checked command
list to `options[iptables-commands]`.  The ruleset is only read. -/
def setHostOptions (rs : Ruleset) (ncSubnetNet : GoIPNet) (options : OptionsMap)
    (info : IPResultInfo) : Except InvokerErr OptionsMap :=
  match parseIP info.hostPrimaryIP with
  | none => .error (.hostIPInvalid info.hostPrimaryIP)
  | some _hostIP =>
    match parseIP info.hostGateway with
    | none => .error (.hostGatewayInvalid info.hostGateway)
    | some hostGateway =>
      let options := setOpt options RoutesKey (.routeInfos [⟨ncSubnetNet, hostGateway⟩])
      .ok (setOpt options IPTablesKey (.iptEntries (hostProgCmds rs ncSubnetNet info)))

/-! ## The invoker -/

/-- The CNI argument envelope fields the invoker reads
(`cniSkel.CmdArgs`): the runtime container id and the interface name. -/
structure CNIArgs where
  containerID : String
  ifName : String
deriving DecidableEq, Repr

/-- Modelled from the spec: `GetEndpointID` (defined elsewhere in
cni/network, not under `src/`): the pod-interface-id derived from the
CNI args. -/
def GetEndpointID (a : CNIArgs) : String :=
  a.containerID ++ "-" ++ a.ifName

/-- Placeholder for `cni.NetworkConfig`: the invoker body reads none of
its fields. -/
structure NetworkConfig where
deriving DecidableEq, Repr

/-- `IPAMAddConfig`: network config, a possibly-nil args envelope, and
the caller's options map. -/
structure IPAMAddConfig where
  nwCfg : NetworkConfig
  args : Option CNIArgs
  options : OptionsMap
deriving DecidableEq, Repr

/-- Modelled from the spec: `util.IpamMode` constant `v4overlay`. -/
def v4OverlayMode : String := "v4overlay"

/-- Modelled from the spec: `util.IpamMode` constant
`dualstackoverlay`. -/
def dualStackOverlayMode : String := "dualstackoverlay"

/-- Modelled from the spec: `util.IpamMode` constant `overlay`. -/
def overlayMode : String := "overlay"

/-- `overlayGatewayV6IP` (invoker_cns.go line 27). -/
def overlayGatewayV6IP : String := "fe80::1234:5678:9abc"

/-- `watcherPath` (invoker_cns.go line 28): the deferred-delete
directory. -/
def watcherPath : String := "/var/run/azure-vnet/deleteIDs"

/-- `CNSIPAMInvoker` restricted to the fields its `Add`/`Delete` read
(pod identity is carried but only marshalled; the execution mode is
never read). -/
structure CNSIPAMInvoker where
  podName : String
  podNamespace : String
  ipamMode : String
deriving DecidableEq, Repr

/-- Equality of `Except` values is decidable componentwise. -/
instance {ε α : Type} [DecidableEq ε] [DecidableEq α] : DecidableEq (Except ε α) := fun x y =>
  match x, y with
  | .ok a, .ok b =>
    if h : a = b then .isTrue (by rw [h]) else .isFalse (by simp [h])
  | .error a, .error b =>
    if h : a = b then .isTrue (by rw [h]) else .isFalse (by simp [h])
  | .ok _, .error _ => .isFalse (by simp)
  | .error _, .ok _ => .isFalse (by simp)

/-- The backend's behaviour for this invocation: what each CNS client
call would return.  The single-allocation response of
`RequestIPAddress` carries one `PodIpInfo`. -/
structure CNSEnv where
  requestIPs : Except CNSErr IPConfigsResponse
  requestIPAddress : Except CNSErr PodIpInfo
  releaseIPs : Except CNSErr Unit
  releaseIPAddress : Except CNSErr Unit
deriving DecidableEq, Repr

/-- Observable side effects, in order: backend calls, host-programming
invocations, and deferred-delete enqueues
(dir, filename = pod-interface-id, content = container-id). -/
inductive CallEvent where
  | requestIPs
  | requestIPAddress
  | releaseIPs
  | releaseIPAddress
  | hostProgramming
  | enqueueFile (dir name content : String)
deriving DecidableEq, Repr

/-- Modelled from the spec: `getOverlayGateway` (defined in the overlay
invoker file, not under `src/`): the synthesized overlay gateway is the
first usable address of the nc-subnet. -/
def getOverlayGateway : GoIPNet → Except InvokerErr IPAddr
  | ⟨.v4 n, _⟩ => .ok (.v4 (n + 1))
  | ⟨.v6 _, _⟩ => .error .overlayGatewayErr

/-- The state threaded through the response loop of `Add` (lines
124-127 plus the options map and the effect trace). -/
structure LoopState where
  options : OptionsMap
  addResult : IPAMAddResult
  isDefaultInterfaceSet : Bool
  defaultRoutes : List CNIRoute
  calls : List CallEvent
deriving DecidableEq, Repr

/-- Outcome of processing one allocation (or the rest of the loop): on
failure Go returns `IPAMAddResult{}, err` but the caller's options map
keeps every write already made, so the failure carries the map and the
trace. -/
inductive StepResult where
  | ok (st : LoopState)
  | fail (e : InvokerErr) (options : OptionsMap) (calls : List CallEvent)
deriving DecidableEq, Repr

/-- Lines 190-194: set the NC primary IP in options, never for IPv6
(`net.ParseIP(info.ncPrimaryIP).To4() != nil`). -/
def snatOptions (opts : OptionsMap) (info : IPResultInfo) : OptionsMap :=
  match parseIP info.ncPrimaryIP with
  | some ip => if ip.isV4 then setOpt opts SNATIPKey (.str info.ncPrimaryIP) else opts
  | none => opts

/-- Lines 201-218: parse the nc gateway; when it does not parse,
synthesize it in an overlay mode (first usable v4 address, fixed v6
link-local), otherwise fail with the invalid-gateway error. -/
def ncGatewayOf (invoker : CNSIPAMInvoker) (info : IPResultInfo) (ncIPNet : GoIPNet) :
    Except InvokerErr (Option IPAddr) :=
  match parseIP info.ncGatewayIPAddress with
  | some g => .ok (some g)
  | none =>
    if invoker.ipamMode ≠ v4OverlayMode ∧ invoker.ipamMode ≠ dualStackOverlayMode ∧
        invoker.ipamMode ≠ overlayMode then
      .error (.invalidGateway info.ncGatewayIPAddress)
    else
      match parseIP info.podIPAddress with
      | some p =>
        if p.isV4 then (getOverlayGateway ncIPNet).map some
        else .ok (parseIP overlayGatewayV6IP)
      | none => .error .noPodIP

/-- Lines 226-257: when the pod IP parses, append the allocation and
its routes to the default CNI result, queue the default route, and set
`ipv6Enabled` for a v6 pod IP. -/
def defaultBlock (st : LoopState) (info : IPResultInfo) (ncgw : Option IPAddr)
    (resultIPnet : GoIPNet) : Except InvokerErr (IPAMAddResult × List CNIRoute) :=
  match parseIP info.podIPAddress with
  | some ip2 =>
    let dcr := st.addResult.defaultCniResult.ipResult.getD emptyCurrResult
    let defaultRouteDst : GoIPNet :=
      if ip2.isV4 then ⟨.v4 0, 0⟩ else ⟨.v6 0, 0⟩
    let ipv6Enabled := if ip2.isV4 then st.addResult.ipv6Enabled else true
    let dcr := { dcr with ips := dcr.ips ++ [(⟨resultIPnet, ncgw⟩ : CNIIPConfig)] }
    let defaultRoutes := st.defaultRoutes ++ [(⟨defaultRouteDst, ncgw⟩ : CNIRoute)]
    match getRoutes info.routes with
    | .error re => .error (.routeErr re)
    | .ok routes =>
      let dcr := { dcr with routes := dcr.routes ++ routes }
      .ok ({ st.addResult with
              defaultCniResult := { st.addResult.defaultCniResult with ipResult := some dcr }
              ipv6Enabled := ipv6Enabled },
           defaultRoutes)
  | none => .ok (st.addResult, st.defaultRoutes)

/-- The `default:` branch of the response loop (lines 189-274): SNAT
key write, pod CIDR parse, gateway parse / overlay synthesis, default
result append, host subnet parse, and host programming outside overlay
modes. -/
def defaultBranch (invoker : CNSIPAMInvoker) (rs : Ruleset) (st : LoopState)
    (info : IPResultInfo) : StepResult :=
  let options0 := snatOptions st.options info
  match parseCIDR (info.podIPAddress ++ "/" ++ toString info.ncSubnetPrefixLength) with
  | none => .fail (.parseIPFailed info.podIPAddress) options0 st.calls
  | some (ip, ncIPNet) =>
    match ncGatewayOf invoker info ncIPNet with
    | .error e => .fail e options0 st.calls
    | .ok ncgw =>
      let resultIPnet : GoIPNet := ⟨ip, ncIPNet.maskLen⟩
      match defaultBlock st info ncgw resultIPnet with
      | .error e => .fail e options0 st.calls
      | .ok (addResult1, defaultRoutes1) =>
        -- lines 259-265: host subnet
        match parseCIDR info.hostSubnet with
        | none => .fail (.hostSubnetParse info.hostSubnet) options0 st.calls
        | some (_, hostIPNet) =>
          let addResult2 := { addResult1 with hostSubnetPrefix := some hostIPNet }
          -- lines 268-274: host programming outside overlay modes
          if invoker.ipamMode ≠ v4OverlayMode ∧ invoker.ipamMode ≠ dualStackOverlayMode ∧
              invoker.ipamMode ≠ overlayMode then
            let calls1 := st.calls ++ [CallEvent.hostProgramming]
            match setHostOptions rs ncIPNet options0 info with
            | .error e => .fail e options0 calls1
            | .ok options1 =>
              .ok { st with options := options1, addResult := addResult2,
                            defaultRoutes := defaultRoutes1, calls := calls1 }
          else
            .ok { st with options := options0, addResult := addResult2,
                          defaultRoutes := defaultRoutes1 }

/-- Processing one allocation of the response (the loop body, lines
129-276). -/
def processPodIPInfo (invoker : CNSIPAMInvoker) (rs : Ruleset) (st : LoopState)
    (pii : PodIpInfo) : StepResult :=
  let info := mkIPResultInfo pii
  if info.addressType = cnsSecondary then
    -- lines 149-188: the secondary branch
    match podIPConfigGetIPNet pii.podIPConfig with
    | none => .fail (.parseIPFailed info.podIPAddress) st.options st.calls
    | some (ip, ipnet) =>
      match parseMAC info.macAddress with
      | none => .fail (.invalidMac info.macAddress) st.options st.calls
      | some macAddress =>
        let isSet := st.isDefaultInterfaceSet || info.isDefaultInterface
        match getRoutes info.routes with
        | .error re => .fail (.routeErr re) st.options st.calls
        | .ok routes =>
          let result : CNIResult :=
            { ipResult := some
                { ips := [⟨⟨ip, ipnet.maskLen⟩, none⟩]
                  interfaces := [info.macAddress]
                  routes := routes }
              addressType := cnsSecondary
              macAddress := some macAddress
              isDefaultInterface := info.isDefaultInterface }
          .ok { st with
                  isDefaultInterfaceSet := isSet
                  addResult := { st.addResult with
                                  cniResults := st.addResult.cniResults ++ [result] } }
  else
    defaultBranch invoker rs st info

/-- The response loop (lines 129-276). -/
def processLoop (invoker : CNSIPAMInvoker) (rs : Ruleset) (st : LoopState) :
    List PodIpInfo → StepResult
  | [] => .ok st
  | p :: ps =>
    match processPodIPInfo invoker rs st p with
    | .ok st' => processLoop invoker rs st' ps
    | .fail e o c => .fail e o c

/-- The value `Add` hands back: Go returns `(IPAMAddResult, error)`;
`nilDeref` records the run that dereferences the nil default
`ipResult` pointer at line 280 instead of returning. -/
inductive AddOutcome where
  | ok (r : IPAMAddResult)
  | err (r : IPAMAddResult) (e : InvokerErr)
  | nilDeref
deriving DecidableEq, Repr

/-- Result of `Add` together with the caller's options map and the
effect trace. -/
structure AddOut where
  outcome : AddOutcome
  options : OptionsMap
  calls : List CallEvent
deriving DecidableEq, Repr

/-- The part of `Add` after a response is in hand (lines 124-286): run
the loop, set the default-interface flag, and install the fallback
default routes. -/
def addWithResponse (invoker : CNSIPAMInvoker) (rs : Ruleset) (addConfig : IPAMAddConfig)
    (response : IPConfigsResponse) (calls : List CallEvent) : AddOut :=
  let st0 : LoopState :=
    ⟨addConfig.options, emptyIPAMAddResult, false, [], calls⟩
  match processLoop invoker rs st0 response.podIPInfo with
  | .fail e o c => ⟨.err emptyIPAMAddResult e, o, c⟩
  | .ok st =>
    -- line 278: first write of isDefaultInterface
    let r1 := { st.addResult with
                  defaultCniResult := { st.addResult.defaultCniResult with
                                          isDefaultInterface := !st.isDefaultInterfaceSet } }
    -- line 280 reads r1.defaultCniResult.ipResult.Routes: nil deref when the
    -- pointer was never set (no default-type allocation in the response)
    match r1.defaultCniResult.ipResult with
    | none => ⟨.nilDeref, st.options, st.calls⟩
    | some ipr =>
      let ipr2 := if ipr.routes.length = 0 then { ipr with routes := st.defaultRoutes } else ipr
      -- line 284: second (redundant) write of isDefaultInterface
      let r2 := { r1 with
                    defaultCniResult := { r1.defaultCniResult with
                                            ipResult := some ipr2
                                            isDefaultInterface := !st.isDefaultInterfaceSet } }
      ⟨.ok r2, st.options, st.calls⟩

/-- `CNSIPAMInvoker.Add` (lines 64-287): fail on nil args, request the
batch API, fall back to the singleton API exactly on the UnsupportedAPI
sentinel, then process the response. -/
def CNSIPAMInvoker.Add (invoker : CNSIPAMInvoker) (env : CNSEnv) (rs : Ruleset)
    (addConfig : IPAMAddConfig) : AddOut :=
  -- json.Marshal of the pod identity is modelled as always succeeding
  match addConfig.args with
  | none => ⟨.err emptyIPAMAddResult .emptyCNIArgs, addConfig.options, []⟩
  | some _args =>
    match env.requestIPs with
    | .ok response => addWithResponse invoker rs addConfig response [.requestIPs]
    | .error e =>
      if IsUnsupportedAPI e then
        match env.requestIPAddress with
        | .error e2 =>
          ⟨.err emptyIPAMAddResult (.requestIPAddressFailed e2), addConfig.options,
           [.requestIPs, .requestIPAddress]⟩
        | .ok pod =>
          addWithResponse invoker rs addConfig ⟨[pod]⟩ [.requestIPs, .requestIPAddress]
      else
        ⟨.err emptyIPAMAddResult (.requestIPsFailed e), addConfig.options, [.requestIPs]⟩

/-- Result of `Delete` together with the effect trace and the files the
deferred-delete watcher directory gained. -/
structure DeleteOut where
  result : Except InvokerErr Unit
  calls : List CallEvent
  files : List (String × String × String)
deriving DecidableEq, Repr

/-- Modelled from the spec: `fsnotify.AddFile` (the fsnotify package is
not under `src/`): persist the `(pod-interface-id, container-id)` pair
as one file in the watcher directory; the model's enqueue succeeds. -/
def fsnotifyAddFile (podInterfaceID containerID dir : String) :
    Except InvokerErr (String × String × String) :=
  .ok (dir, podInterfaceID, containerID)

/-- `CNSIPAMInvoker.Delete` (lines 345-412): fail on nil args, release
via the batch API, fall back to the singleton API on UnsupportedAPI,
enqueue to the deferred-delete watcher on ConnectionFailure, and fail
on any other release error.  The `nwCfg` and options arguments are
unused by the body, as in the source. -/
def CNSIPAMInvoker.Delete (_invoker : CNSIPAMInvoker) (env : CNSEnv)
    (address : Option GoIPNet) (_nwCfg : NetworkConfig) (args : Option CNIArgs)
    (_options : OptionsMap) : DeleteOut :=
  match args with
  | none => ⟨.error .emptyCNIArgs, [], []⟩
  | some a =>
    -- the request's DesiredIPAddresses gains address.IP when non-nil;
    -- the released address is not otherwise observable here
    let _desired := (address.map fun n => [ipToString n.ip]).getD []
    match env.releaseIPs with
    | .ok _ => ⟨.ok (), [.releaseIPs], []⟩
    | .error e =>
      if IsUnsupportedAPI e then
        match env.releaseIPAddress with
        | .ok _ => ⟨.ok (), [.releaseIPs, .releaseIPAddress], []⟩
        | .error e2 =>
          ⟨.error (.releaseIPAddressFailed e2), [.releaseIPs, .releaseIPAddress], []⟩
      else
        match e with
        | .connectionFailure =>
          match fsnotifyAddFile (GetEndpointID a) a.containerID watcherPath with
          | .ok f =>
            ⟨.ok (), [.releaseIPs, .enqueueFile f.1 f.2.1 f.2.2], [f]⟩
          | .error e3 => ⟨.error e3, [.releaseIPs], []⟩
        | _ => ⟨.error (.releaseFailed e), [.releaseIPs], []⟩

/-! ## Helper lemmas on the options map -/

theorem lookupOpt_setOpt_self (m : OptionsMap) (k : String) (v : OptVal) :
    lookupOpt (setOpt m k v) k = some v := by
  induction m with
  | nil => simp [setOpt, lookupOpt]
  | cons p rest ih =>
    obtain ⟨k', v'⟩ := p
    by_cases h : k' = k
    · simp [setOpt, lookupOpt, h]
    · simp [setOpt, lookupOpt, h, ih]

theorem lookupOpt_setOpt_ne (m : OptionsMap) {k k' : String} (v : OptVal) (h : k' ≠ k) :
    lookupOpt (setOpt m k' v) k = lookupOpt m k := by
  induction m with
  | nil => simp [setOpt, lookupOpt, h]
  | cons p rest ih =>
    obtain ⟨k'', v''⟩ := p
    by_cases h2 : k'' = k'
    · simp [setOpt, lookupOpt, h2, h]
    · simp only [setOpt, lookupOpt, if_neg h2]
      by_cases h3 : k'' = k <;> simp [lookupOpt, h3, ih]

/-! ## Concrete fixtures used by witnesses and counterexamples -/

/-- Host-side info whose subnet, primary IP and gateway all parse. -/
def sampleHostInfo : HostIPInfo := ⟨"10.224.0.0/16", "10.224.0.5", "10.224.0.1"⟩

/-- A default-type allocation (address type is not `Secondary`). -/
def samplePodDefault : PodIpInfo :=
  { podIPConfig := ⟨"10.240.0.10", 24⟩
    networkContainerPrimaryIPConfig := ⟨⟨"10.240.0.4", 24⟩, "10.240.0.1"⟩
    hostPrimaryIPInfo := sampleHostInfo
    addressType := ""
    macAddress := ""
    isDefaultInterface := false
    routes := [] }

/-- A second default-type allocation with a different nc-primary-ip. -/
def samplePodDefault2 : PodIpInfo :=
  { samplePodDefault with
    podIPConfig := ⟨"10.241.0.10", 24⟩
    networkContainerPrimaryIPConfig := ⟨⟨"10.241.0.4", 24⟩, "10.241.0.1"⟩ }

/-- A secondary allocation carrying an IPv6 pod address. -/
def samplePodSecondaryV6 : PodIpInfo :=
  { podIPConfig := ⟨"fc00::2", 120⟩
    networkContainerPrimaryIPConfig := ⟨⟨"10.240.0.4", 24⟩, "10.240.0.1"⟩
    hostPrimaryIPInfo := sampleHostInfo
    addressType := "Secondary"
    macAddress := "aa:bb:cc:dd:ee:ff"
    isDefaultInterface := false
    routes := [] }

/-- A secondary allocation with an unparseable MAC. -/
def samplePodSecondaryBadMac : PodIpInfo :=
  { samplePodSecondaryV6 with macAddress := "not-a-mac" }

/-- An invoker outside every overlay mode. -/
def sampleInvoker : CNSIPAMInvoker := ⟨"pod", "ns", ""⟩

/-- An invoker in overlay mode. -/
def overlayInvoker : CNSIPAMInvoker := ⟨"pod", "ns", overlayMode⟩

/-- An empty live ruleset. -/
def emptyRuleset : Ruleset := ⟨[], []⟩

/-- Sample CNI args. -/
def sampleArgs : CNIArgs := ⟨"cid", "eth0"⟩

/-- An add config with args present and an empty options map. -/
def sampleCfg : IPAMAddConfig := ⟨⟨⟩, some sampleArgs, []⟩

/-- A backend whose batch request answers `r` and all other calls are
unremarkable. -/
def envBatch (r : Except CNSErr IPConfigsResponse) : CNSEnv :=
  ⟨r, .error (.other "unused"), .ok (), .ok ()⟩

/-- A backend whose batch release answers `r`. -/
def envRelease (r : Except CNSErr Unit) : CNSEnv :=
  ⟨.error (.other "unused"), .error (.other "unused"), r, .ok ()⟩

/-! ## C8 — nil CNI args fail fast with no backend call -/

/-- C8: for every invoker, backend behaviour, ruleset, network config,
options map and address, a nil args envelope makes `Add` fail with the
EmptyArgs error having issued no backend call, and likewise `Delete`:
the effect trace is empty and the options map is returned untouched. -/
theorem nil_args_fail_fast_no_backend_call
    (invoker : CNSIPAMInvoker) (env : CNSEnv) (rs : Ruleset)
    (nwCfg : NetworkConfig) (opts : OptionsMap) (address : Option GoIPNet) :
    invoker.Add env rs ⟨nwCfg, none, opts⟩ =
      ⟨.err emptyIPAMAddResult .emptyCNIArgs, opts, []⟩ ∧
    invoker.Delete env address nwCfg none opts = ⟨.error .emptyCNIArgs, [], []⟩ :=
  ⟨rfl, rfl⟩

/-! ## C6 — deferred delete on connection failure -/

/-- C6: with a non-nil args envelope, a batch release failing with the
ConnectionFailure sentinel makes `Delete` enqueue the
(pod-interface-id, container-id) pair as a file under the deferred
delete directory `/var/run/azure-vnet/deleteIDs` and return success,
while a release failure that is neither UnsupportedAPI nor
ConnectionFailure makes `Delete` return the release-failure error and
enqueue nothing. -/
theorem delete_defers_on_connection_failure
    (invoker : CNSIPAMInvoker) (env : CNSEnv) (address : Option GoIPNet)
    (nwCfg : NetworkConfig) (opts : OptionsMap) (a : CNIArgs) :
    (env.releaseIPs = .error .connectionFailure →
      invoker.Delete env address nwCfg (some a) opts =
        ⟨.ok (),
         [.releaseIPs, .enqueueFile watcherPath (GetEndpointID a) a.containerID],
         [(watcherPath, GetEndpointID a, a.containerID)]⟩) ∧
    (∀ e : CNSErr, env.releaseIPs = .error e → IsUnsupportedAPI e = false →
      e ≠ .connectionFailure →
      invoker.Delete env address nwCfg (some a) opts =
        ⟨.error (.releaseFailed e), [.releaseIPs], []⟩) := by
  constructor
  · intro h
    simp [CNSIPAMInvoker.Delete, h, IsUnsupportedAPI, fsnotifyAddFile]
  · intro e h hu hc
    cases e with
    | unsupportedAPI => simp [IsUnsupportedAPI] at hu
    | connectionFailure => exact absurd rfl hc
    | other m => simp [CNSIPAMInvoker.Delete, h, IsUnsupportedAPI]

/-- Witness for C6 at a concrete backend and args. -/
theorem delete_defers_on_connection_failure_witness :
    sampleInvoker.Delete (envRelease (.error .connectionFailure)) none ⟨⟩ (some sampleArgs) [] =
      ⟨.ok (),
       [.releaseIPs, .enqueueFile watcherPath (GetEndpointID sampleArgs) sampleArgs.containerID],
       [(watcherPath, GetEndpointID sampleArgs, sampleArgs.containerID)]⟩ ∧
    sampleInvoker.Delete (envRelease (.error (.other "boom"))) none ⟨⟩ (some sampleArgs) [] =
      ⟨.error (.releaseFailed (.other "boom")), [.releaseIPs], []⟩ :=
  ⟨(delete_defers_on_connection_failure sampleInvoker (envRelease (.error .connectionFailure))
      none ⟨⟩ [] sampleArgs).1 rfl,
   (delete_defers_on_connection_failure sampleInvoker (envRelease (.error (.other "boom")))
      none ⟨⟩ [] sampleArgs).2 (.other "boom") rfl rfl (by decide)⟩

/-! ## C2 — route translation -/

/-- Both fields of a route descriptor parse. -/
def routeParses (r : CNSRoute) : Bool :=
  (parseCIDR r.ipAddress).isSome && (parseIP r.gatewayIPAddress).isSome

/-- C2 counterexample: `getRoutes` does not reject an entry whose
destination is IPv4 while its gateway is IPv6; the mixed-family entry
below is translated successfully, so the rejection clause of the claim
is false at this input. -/
theorem getRoutes_accepts_family_mismatch :
    getRoutes [⟨"10.0.0.0/24", "fe80::1"⟩] =
      .ok [⟨⟨.v4 167772160, 24⟩,
            some (.v6 338288524927261089654018896841347694593)⟩] ∧
    (IPAddr.v4 167772160).isV4 = true ∧
    (IPAddr.v6 338288524927261089654018896841347694593).isV4 = false := by
  refine ⟨by decide, rfl, rfl⟩

/-- C2 as amended: route translation succeeds on every list in which
each destination parses as a CIDR and each gateway parses as an IP —
with no address-family agreement required — and fails on the first
entry with a parse error, reporting that entry's text (destination
parse failures first, then gateway parse failures). -/
theorem getRoutes_parse_characterisation :
    (∀ rts : List CNSRoute, (∀ r ∈ rts, routeParses r = true) →
      ∃ l, getRoutes rts = .ok l ∧ l.length = rts.length) ∧
    (∀ (pre : List CNSRoute) (bad : CNSRoute) (post : List CNSRoute),
      (∀ r ∈ pre, routeParses r = true) → parseCIDR bad.ipAddress = none →
      getRoutes (pre ++ bad :: post) = .error (.badDst bad.ipAddress)) ∧
    (∀ (pre : List CNSRoute) (bad : CNSRoute) (post : List CNSRoute),
      (∀ r ∈ pre, routeParses r = true) → (parseCIDR bad.ipAddress).isSome →
      parseIP bad.gatewayIPAddress = none →
      getRoutes (pre ++ bad :: post) = .error (.badGw bad.gatewayIPAddress)) := by
  refine ⟨?_, ?_, ?_⟩
  · intro rts h
    induction rts with
    | nil => exact ⟨[], rfl, rfl⟩
    | cons r rest ih =>
      have hr := h r (List.mem_cons_self r rest)
      simp only [routeParses, Bool.and_eq_true, Option.isSome_iff_exists] at hr
      obtain ⟨⟨⟨a, dst⟩, hd⟩, ⟨gw, hg⟩⟩ := hr
      obtain ⟨l, hl, hlen⟩ := ih fun x hx => h x (List.mem_cons_of_mem r hx)
      exact ⟨⟨dst, some gw⟩ :: l, by simp [getRoutes, hd, hg, hl, Except.map], by simp [hlen]⟩
  · intro pre bad post h hbad
    induction pre with
    | nil => simp [getRoutes, hbad]
    | cons r rest ih =>
      have hr := h r (List.mem_cons_self r rest)
      simp only [routeParses, Bool.and_eq_true, Option.isSome_iff_exists] at hr
      obtain ⟨⟨⟨a, dst⟩, hd⟩, ⟨gw, hg⟩⟩ := hr
      have := ih fun x hx => h x (List.mem_cons_of_mem r hx)
      simp [getRoutes, hd, hg, this, Except.map]
  · intro pre bad post h hsome hbad
    obtain ⟨⟨a, dst⟩, hd⟩ := Option.isSome_iff_exists.mp hsome
    induction pre with
    | nil => simp [getRoutes, hd, hbad]
    | cons r rest ih =>
      have hr := h r (List.mem_cons_self r rest)
      simp only [routeParses, Bool.and_eq_true, Option.isSome_iff_exists] at hr
      obtain ⟨⟨⟨a2, dst2⟩, hd2⟩, ⟨gw2, hg2⟩⟩ := hr
      have := ih fun x hx => h x (List.mem_cons_of_mem r hx)
      simp [getRoutes, hd2, hg2, this, Except.map]

/-- Witness for C2's amended statement at concrete inputs. -/
theorem getRoutes_parse_characterisation_witness :
    (∃ l, getRoutes [⟨"10.0.0.0/24", "10.0.0.1"⟩] = .ok l ∧ l.length = 1) ∧
    getRoutes [⟨"10.0.0.0/24", "10.0.0.1"⟩, ⟨"bogus", "10.0.0.1"⟩] =
      .error (.badDst "bogus") ∧
    getRoutes [⟨"10.0.0.0/24", "bogus"⟩] = .error (.badGw "bogus") :=
  ⟨getRoutes_parse_characterisation.1 _ (by decide),
   getRoutes_parse_characterisation.2.1 [⟨"10.0.0.0/24", "10.0.0.1"⟩] ⟨"bogus", "10.0.0.1"⟩ []
     (by decide) (by decide),
   getRoutes_parse_characterisation.2.2 [] ⟨"10.0.0.0/24", "bogus"⟩ [] (by decide) (by decide)
     (by decide)⟩

/-! ## C7 — host programming is idempotent over the ruleset -/

theorem mem_chains_applyEntry {x : String × String × String} (rs : Ruleset) (e : IPTableEntry)
    (h : x ∈ rs.chains) : x ∈ (applyEntry rs e).chains := by
  cases e <;> simp [applyEntry, h]

theorem mem_rules_applyEntry {x : IPTableRule} (rs : Ruleset) (e : IPTableEntry)
    (h : x ∈ rs.rules) : x ∈ (applyEntry rs e).rules := by
  cases e <;> simp [applyEntry, h]

theorem mem_chains_applyEntries {x : String × String × String} (es : List IPTableEntry)
    (rs : Ruleset) (h : x ∈ rs.chains) : x ∈ (applyEntries rs es).chains := by
  induction es generalizing rs with
  | nil => exact h
  | cons e rest ih => exact ih _ (mem_chains_applyEntry rs e h)

theorem mem_rules_applyEntries {x : IPTableRule} (es : List IPTableEntry)
    (rs : Ruleset) (h : x ∈ rs.rules) : x ∈ (applyEntries rs es).rules := by
  induction es generalizing rs with
  | nil => exact h
  | cons e rest ih => exact ih _ (mem_rules_applyEntry rs e h)

theorem chainExists_eq_true {rs : Ruleset} {v t c : String} :
    chainExists rs v t c = true ↔ (v, t, c) ∈ rs.chains := by
  simp [chainExists]

theorem ruleExists_eq_true {rs : Ruleset} {v t c m j : String} :
    ruleExists rs v t c m j = true ↔ (⟨v, t, c, m, j⟩ : IPTableRule) ∈ rs.rules := by
  simp [ruleExists]

theorem applyEntries_append (rs : Ruleset) (es1 es2 : List IPTableEntry) :
    applyEntries rs (es1 ++ es2) = applyEntries (applyEntries rs es1) es2 :=
  List.foldl_append _ _ _ _

/-- A check holds after running any pre/post commands around its own
check-then-install block. -/
theorem check_true_after_block (check : Ruleset → Bool) (cmd : IPTableEntry)
    (mono : ∀ rs e, check rs = true → check (applyEntry rs e) = true)
    (self : ∀ rs, check (applyEntry rs cmd) = true)
    (pre post : List IPTableEntry) (rs : Ruleset) :
    check (applyEntries rs (pre ++ (if check rs then [] else [cmd]) ++ post)) = true := by
  have monoEs : ∀ es rs, check rs = true → check (applyEntries rs es) = true := by
    intro es
    induction es with
    | nil => intro rs h; exact h
    | cons e rest ih => intro rs h; exact ih _ (mono rs e h)
  by_cases h : check rs = true
  · rw [if_pos h, List.append_nil, applyEntries_append]
    exact monoEs post _ (monoEs pre _ h)
  · rw [if_neg h, applyEntries_append, applyEntries_append]
    exact monoEs post _ (self (applyEntries rs pre))

/-- C7: each of the five rules of `setHostOptions` is emitted only when
an exact match is absent, so given parseable host addresses the call
succeeds writing the checked command list, and running that list leaves
a ruleset on which a second identical call emits no commands at all and
therefore leaves the ruleset unchanged. -/
theorem host_programming_idempotent (rs : Ruleset) (net : GoIPNet) (opts : OptionsMap)
    (info : IPResultInfo) (hip hgw : IPAddr)
    (hHIP : parseIP info.hostPrimaryIP = some hip)
    (hHGW : parseIP info.hostGateway = some hgw) :
    (setHostOptions rs net opts info =
      .ok (setOpt (setOpt opts RoutesKey (.routeInfos [⟨net, hgw⟩]))
            IPTablesKey (.iptEntries (hostProgCmds rs net info)))) ∧
    hostProgCmds (applyEntries rs (hostProgCmds rs net info)) net info = [] ∧
    applyEntries (applyEntries rs (hostProgCmds rs net info))
        (hostProgCmds (applyEntries rs (hostProgCmds rs net info)) net info) =
      applyEntries rs (hostProgCmds rs net info) := by
  have hset : setHostOptions rs net opts info =
      .ok (setOpt (setOpt opts RoutesKey (.routeInfos [⟨net, hgw⟩]))
            IPTablesKey (.iptEntries (hostProgCmds rs net info))) := by
    simp [setHostOptions, hHIP, hHGW]
  -- the five checks, numbered in install order
  set c1 : Ruleset → Bool := fun s => chainExists s iptablesV4 natTable swiftChain with hc1
  set e1 : IPTableEntry := .createChain iptablesV4 natTable swiftChain with he1
  set m2 : String := "" with hm2
  set mDNSU : String :=
    addrtypeMatch (netToString net) azureDNS udpProto dnsPort with hmDNSU
  set mDNST : String :=
    addrtypeMatch (netToString net) azureDNS tcpProto dnsPort with hmDNST
  set mIMDS : String :=
    addrtypeMatch (netToString net) azureIMDS tcpProto httpPort with hmIMDS
  set jPrim : String := snatTarget ++ " --to " ++ info.ncPrimaryIP with hjPrim
  set jHost : String := snatTarget ++ " --to " ++ info.hostPrimaryIP with hjHost
  have monoChain : ∀ s e, c1 s = true → c1 (applyEntry s e) = true := by
    intro s e h
    exact chainExists_eq_true.mpr (mem_chains_applyEntry s e (chainExists_eq_true.mp h))
  have selfChain : ∀ s, c1 (applyEntry s e1) = true := by
    intro s
    exact chainExists_eq_true.mpr (by simp [he1, applyEntry])
  have monoRule : ∀ c m j, ∀ (s : Ruleset) (e : IPTableEntry),
      ruleExists s iptablesV4 natTable c m j = true →
      ruleExists (applyEntry s e) iptablesV4 natTable c m j = true := by
    intro c m j s e h
    exact ruleExists_eq_true.mpr (mem_rules_applyEntry s e (ruleExists_eq_true.mp h))
  have selfAppend : ∀ c m j (s : Ruleset),
      ruleExists (applyEntry s (.appendRule iptablesV4 natTable c m j))
        iptablesV4 natTable c m j = true := by
    intro c m j s
    exact ruleExists_eq_true.mpr (by simp [applyEntry])
  have selfInsert : ∀ c m j (s : Ruleset),
      ruleExists (applyEntry s (.insertRule iptablesV4 natTable c m j))
        iptablesV4 natTable c m j = true := by
    intro c m j s
    exact ruleExists_eq_true.mpr (by simp [applyEntry])
  -- name the five blocks of the first run (`++` is left-associated)
  have hcmds : hostProgCmds rs net info =
      (if c1 rs then [] else [e1]) ++
      (if ruleExists rs iptablesV4 natTable postroutingChain m2 swiftChain then []
       else [.appendRule iptablesV4 natTable postroutingChain m2 swiftChain]) ++
      (if ruleExists rs iptablesV4 natTable swiftChain mDNSU jPrim then []
       else [.insertRule iptablesV4 natTable swiftChain mDNSU jPrim]) ++
      (if ruleExists rs iptablesV4 natTable swiftChain mDNST jPrim then []
       else [.insertRule iptablesV4 natTable swiftChain mDNST jPrim]) ++
      (if ruleExists rs iptablesV4 natTable swiftChain mIMDS jHost then []
       else [.insertRule iptablesV4 natTable swiftChain mIMDS jHost]) := rfl
  set rs1 := applyEntries rs (hostProgCmds rs net info) with hrs1
  have h1 : c1 rs1 = true := by
    rw [hrs1, hcmds]
    have := check_true_after_block c1 e1 monoChain selfChain []
      ((if ruleExists rs iptablesV4 natTable postroutingChain m2 swiftChain then []
        else [.appendRule iptablesV4 natTable postroutingChain m2 swiftChain]) ++
       (if ruleExists rs iptablesV4 natTable swiftChain mDNSU jPrim then []
        else [.insertRule iptablesV4 natTable swiftChain mDNSU jPrim]) ++
       (if ruleExists rs iptablesV4 natTable swiftChain mDNST jPrim then []
        else [.insertRule iptablesV4 natTable swiftChain mDNST jPrim]) ++
       (if ruleExists rs iptablesV4 natTable swiftChain mIMDS jHost then []
        else [.insertRule iptablesV4 natTable swiftChain mIMDS jHost])) rs
    simpa [List.append_assoc] using this
  have h2 : ruleExists rs1 iptablesV4 natTable postroutingChain m2 swiftChain = true := by
    rw [hrs1, hcmds]
    have := check_true_after_block
      (fun s => ruleExists s iptablesV4 natTable postroutingChain m2 swiftChain)
      (.appendRule iptablesV4 natTable postroutingChain m2 swiftChain)
      (monoRule _ _ _) (selfAppend _ _ _)
      (if c1 rs then [] else [e1])
      ((if ruleExists rs iptablesV4 natTable swiftChain mDNSU jPrim then []
        else [.insertRule iptablesV4 natTable swiftChain mDNSU jPrim]) ++
       (if ruleExists rs iptablesV4 natTable swiftChain mDNST jPrim then []
        else [.insertRule iptablesV4 natTable swiftChain mDNST jPrim]) ++
       (if ruleExists rs iptablesV4 natTable swiftChain mIMDS jHost then []
        else [.insertRule iptablesV4 natTable swiftChain mIMDS jHost])) rs
    simpa [List.append_assoc] using this
  have h3 : ruleExists rs1 iptablesV4 natTable swiftChain mDNSU jPrim = true := by
    rw [hrs1, hcmds]
    have := check_true_after_block
      (fun s => ruleExists s iptablesV4 natTable swiftChain mDNSU jPrim)
      (.insertRule iptablesV4 natTable swiftChain mDNSU jPrim)
      (monoRule _ _ _) (selfInsert _ _ _)
      ((if c1 rs then [] else [e1]) ++
       (if ruleExists rs iptablesV4 natTable postroutingChain m2 swiftChain then []
        else [.appendRule iptablesV4 natTable postroutingChain m2 swiftChain]))
      ((if ruleExists rs iptablesV4 natTable swiftChain mDNST jPrim then []
        else [.insertRule iptablesV4 natTable swiftChain mDNST jPrim]) ++
       (if ruleExists rs iptablesV4 natTable swiftChain mIMDS jHost then []
        else [.insertRule iptablesV4 natTable swiftChain mIMDS jHost])) rs
    simpa [List.append_assoc] using this
  have h4 : ruleExists rs1 iptablesV4 natTable swiftChain mDNST jPrim = true := by
    rw [hrs1, hcmds]
    have := check_true_after_block
      (fun s => ruleExists s iptablesV4 natTable swiftChain mDNST jPrim)
      (.insertRule iptablesV4 natTable swiftChain mDNST jPrim)
      (monoRule _ _ _) (selfInsert _ _ _)
      ((if c1 rs then [] else [e1]) ++
       (if ruleExists rs iptablesV4 natTable postroutingChain m2 swiftChain then []
        else [.appendRule iptablesV4 natTable postroutingChain m2 swiftChain]) ++
       (if ruleExists rs iptablesV4 natTable swiftChain mDNSU jPrim then []
        else [.insertRule iptablesV4 natTable swiftChain mDNSU jPrim]))
      (if ruleExists rs iptablesV4 natTable swiftChain mIMDS jHost then []
       else [.insertRule iptablesV4 natTable swiftChain mIMDS jHost]) rs
    simpa [List.append_assoc] using this
  have h5 : ruleExists rs1 iptablesV4 natTable swiftChain mIMDS jHost = true := by
    rw [hrs1, hcmds]
    have := check_true_after_block
      (fun s => ruleExists s iptablesV4 natTable swiftChain mIMDS jHost)
      (.insertRule iptablesV4 natTable swiftChain mIMDS jHost)
      (monoRule _ _ _) (selfInsert _ _ _)
      ((if c1 rs then [] else [e1]) ++
       (if ruleExists rs iptablesV4 natTable postroutingChain m2 swiftChain then []
        else [.appendRule iptablesV4 natTable postroutingChain m2 swiftChain]) ++
       (if ruleExists rs iptablesV4 natTable swiftChain mDNSU jPrim then []
        else [.insertRule iptablesV4 natTable swiftChain mDNSU jPrim]) ++
       (if ruleExists rs iptablesV4 natTable swiftChain mDNST jPrim then []
        else [.insertRule iptablesV4 natTable swiftChain mDNST jPrim]))
      [] rs
    simpa [List.append_assoc] using this
  have hsecond : hostProgCmds rs1 net info = [] := by
    show
      (if c1 rs1 then [] else [e1]) ++
      (if ruleExists rs1 iptablesV4 natTable postroutingChain m2 swiftChain then []
       else [.appendRule iptablesV4 natTable postroutingChain m2 swiftChain]) ++
      (if ruleExists rs1 iptablesV4 natTable swiftChain mDNSU jPrim then []
       else [.insertRule iptablesV4 natTable swiftChain mDNSU jPrim]) ++
      (if ruleExists rs1 iptablesV4 natTable swiftChain mDNST jPrim then []
       else [.insertRule iptablesV4 natTable swiftChain mDNST jPrim]) ++
      (if ruleExists rs1 iptablesV4 natTable swiftChain mIMDS jHost then []
       else [.insertRule iptablesV4 natTable swiftChain mIMDS jHost]) = []
    rw [if_pos h1, if_pos h2, if_pos h3, if_pos h4, if_pos h5]
    rfl
  exact ⟨hset, hsecond, by rw [hsecond]; rfl⟩

/-- Witness for C7 at a concrete ruleset and allocation. -/
theorem host_programming_idempotent_witness :
    (setHostOptions emptyRuleset ⟨.v4 184549376, 24⟩ [] (mkIPResultInfo samplePodDefault) =
      .ok (setOpt (setOpt [] RoutesKey (.routeInfos [⟨⟨.v4 184549376, 24⟩, .v4 182452225⟩]))
           IPTablesKey (.iptEntries
             (hostProgCmds emptyRuleset ⟨.v4 184549376, 24⟩ (mkIPResultInfo samplePodDefault))))) ∧
    hostProgCmds
        (applyEntries emptyRuleset
          (hostProgCmds emptyRuleset ⟨.v4 184549376, 24⟩ (mkIPResultInfo samplePodDefault)))
        ⟨.v4 184549376, 24⟩ (mkIPResultInfo samplePodDefault) = [] ∧
    applyEntries
        (applyEntries emptyRuleset
          (hostProgCmds emptyRuleset ⟨.v4 184549376, 24⟩ (mkIPResultInfo samplePodDefault)))
        (hostProgCmds
          (applyEntries emptyRuleset
            (hostProgCmds emptyRuleset ⟨.v4 184549376, 24⟩ (mkIPResultInfo samplePodDefault)))
          ⟨.v4 184549376, 24⟩ (mkIPResultInfo samplePodDefault)) =
      applyEntries emptyRuleset
        (hostProgCmds emptyRuleset ⟨.v4 184549376, 24⟩ (mkIPResultInfo samplePodDefault)) :=
  host_programming_idempotent emptyRuleset ⟨.v4 184549376, 24⟩ []
    (mkIPResultInfo samplePodDefault) (.v4 182452229) (.v4 182452225) (by decide) (by decide)

/-! ## Loop trace: the response loop only ever appends
host-programming events -/

/-- The trace carried by a step result. -/
def StepResult.callsOf : StepResult → List CallEvent
  | .ok st => st.calls
  | .fail _ _ c => c

theorem processPodIPInfo_calls (invoker : CNSIPAMInvoker) (rs : Ruleset) (st : LoopState)
    (p : PodIpInfo) :
    ∃ δ, (processPodIPInfo invoker rs st p).callsOf = st.calls ++ δ ∧
      ∀ e ∈ δ, e = CallEvent.hostProgramming := by
  simp only [processPodIPInfo, defaultBranch]
  repeat' split
  all_goals
    first
      | (refine ⟨[], ?_, ?_⟩ <;> simp [StepResult.callsOf] <;> done)
      | (refine ⟨[CallEvent.hostProgramming], ?_, ?_⟩ <;> simp [StepResult.callsOf] <;>
          done)

theorem processLoop_calls (invoker : CNSIPAMInvoker) (rs : Ruleset) (ps : List PodIpInfo) :
    ∀ st, ∃ δ, (processLoop invoker rs st ps).callsOf = st.calls ++ δ ∧
      ∀ e ∈ δ, e = CallEvent.hostProgramming := by
  induction ps with
  | nil =>
    intro st
    exact ⟨[], by simp [processLoop, StepResult.callsOf], by simp⟩
  | cons p rest ih =>
    intro st
    obtain ⟨δ1, h1, hall1⟩ := processPodIPInfo_calls invoker rs st p
    cases hp : processPodIPInfo invoker rs st p with
    | fail e o c =>
      rw [hp] at h1
      refine ⟨δ1, ?_, hall1⟩
      simpa [processLoop, hp, StepResult.callsOf] using h1
    | ok st1 =>
      rw [hp] at h1
      simp only [StepResult.callsOf] at h1
      obtain ⟨δ2, h2, hall2⟩ := ih st1
      refine ⟨δ1 ++ δ2, ?_, ?_⟩
      · rw [processLoop]
        simp only [hp]
        rw [h2, h1, List.append_assoc]
      · intro e he
        rcases List.mem_append.mp he with h | h
        exacts [hall1 e h, hall2 e h]

theorem addWithResponse_calls (invoker : CNSIPAMInvoker) (rs : Ruleset)
    (cfg : IPAMAddConfig) (resp : IPConfigsResponse) (cs : List CallEvent) :
    ∃ δ, (addWithResponse invoker rs cfg resp cs).calls = cs ++ δ ∧
      ∀ e ∈ δ, e = CallEvent.hostProgramming := by
  obtain ⟨δ, h, hall⟩ :=
    processLoop_calls invoker rs resp.podIPInfo ⟨cfg.options, emptyIPAMAddResult, false, [], cs⟩
  refine ⟨δ, ?_, hall⟩
  cases hp : processLoop invoker rs ⟨cfg.options, emptyIPAMAddResult, false, [], cs⟩
      resp.podIPInfo with
  | fail e o c =>
    rw [hp] at h
    simp only [addWithResponse, hp]
    simpa [StepResult.callsOf] using h
  | ok st =>
    rw [hp] at h
    simp only [StepResult.callsOf] at h
    simp only [addWithResponse, hp]
    split <;> simpa using h

/-! ## C5 — batch first, singleton only on UnsupportedAPI -/

/-- C5: with a non-nil args envelope, `Add` always issues the batch
request first; when the batch call fails with the UnsupportedAPI
sentinel and the singleton call succeeds, `Add` continues exactly as if
the backend had returned a batch response of length one (the same
response-processing continuation on `[pod]`); when the singleton also
fails, that error is returned; and when the batch call fails with any
other error, `Add` fails at once and no singleton request is issued
(the trace is exactly the one batch call). -/
theorem batch_first_singleton_on_unsupported :
    (∀ (invoker : CNSIPAMInvoker) (env : CNSEnv) (rs : Ruleset)
       (cfg : IPAMAddConfig) (a : CNIArgs), cfg.args = some a →
      (invoker.Add env rs cfg).calls.head? = some CallEvent.requestIPs) ∧
    (∀ (invoker : CNSIPAMInvoker) (env : CNSEnv) (rs : Ruleset)
       (cfg : IPAMAddConfig) (a : CNIArgs) (resp : IPConfigsResponse),
      cfg.args = some a → env.requestIPs = .ok resp →
      invoker.Add env rs cfg = addWithResponse invoker rs cfg resp [.requestIPs] ∧
      CallEvent.requestIPAddress ∉ (invoker.Add env rs cfg).calls) ∧
    (∀ (invoker : CNSIPAMInvoker) (env : CNSEnv) (rs : Ruleset)
       (cfg : IPAMAddConfig) (a : CNIArgs) (pod : PodIpInfo),
      cfg.args = some a → env.requestIPs = .error .unsupportedAPI →
      env.requestIPAddress = .ok pod →
      invoker.Add env rs cfg =
        addWithResponse invoker rs cfg ⟨[pod]⟩ [.requestIPs, .requestIPAddress]) ∧
    (∀ (invoker : CNSIPAMInvoker) (env : CNSEnv) (rs : Ruleset)
       (cfg : IPAMAddConfig) (a : CNIArgs) (e2 : CNSErr),
      cfg.args = some a → env.requestIPs = .error .unsupportedAPI →
      env.requestIPAddress = .error e2 →
      invoker.Add env rs cfg =
        ⟨.err emptyIPAMAddResult (.requestIPAddressFailed e2), cfg.options,
         [.requestIPs, .requestIPAddress]⟩) ∧
    (∀ (invoker : CNSIPAMInvoker) (env : CNSEnv) (rs : Ruleset)
       (cfg : IPAMAddConfig) (a : CNIArgs) (e : CNSErr),
      cfg.args = some a → env.requestIPs = .error e → IsUnsupportedAPI e = false →
      invoker.Add env rs cfg =
        ⟨.err emptyIPAMAddResult (.requestIPsFailed e), cfg.options, [.requestIPs]⟩) := by
  refine ⟨?_, ?_, ?_, ?_, ?_⟩
  · intro invoker env rs cfg a hargs
    cases hb : env.requestIPs with
    | ok resp =>
      obtain ⟨δ, h, _⟩ := addWithResponse_calls invoker rs cfg resp [.requestIPs]
      simp only [CNSIPAMInvoker.Add, hargs, hb]
      simp [h]
    | error e =>
      by_cases hu : IsUnsupportedAPI e = true
      · have he : e = .unsupportedAPI := by cases e <;> simp_all [IsUnsupportedAPI]
        subst he
        cases hs : env.requestIPAddress with
        | ok pod =>
          obtain ⟨δ, h, _⟩ :=
            addWithResponse_calls invoker rs cfg ⟨[pod]⟩ [.requestIPs, .requestIPAddress]
          simp only [CNSIPAMInvoker.Add, hargs, hb, hs, IsUnsupportedAPI]
          simp [h]
        | error e2 =>
          simp [CNSIPAMInvoker.Add, hargs, hb, hs, IsUnsupportedAPI]
      · simp [CNSIPAMInvoker.Add, hargs, hb, Bool.eq_false_iff.mpr hu,
          eq_false_of_ne_true hu]
  · intro invoker env rs cfg a resp hargs hb
    constructor
    · simp [CNSIPAMInvoker.Add, hargs, hb]
    · obtain ⟨δ, h, hall⟩ := addWithResponse_calls invoker rs cfg resp [.requestIPs]
      simp only [CNSIPAMInvoker.Add, hargs, hb]
      rw [h]
      intro hmem
      rcases List.mem_append.mp hmem with hmem | hmem
      · simp at hmem
      · exact absurd (hall _ hmem) (by decide)
  · intro invoker env rs cfg a pod hargs hb hs
    simp [CNSIPAMInvoker.Add, hargs, hb, hs, IsUnsupportedAPI]
  · intro invoker env rs cfg a e2 hargs hb hs
    simp [CNSIPAMInvoker.Add, hargs, hb, hs, IsUnsupportedAPI]
  · intro invoker env rs cfg a e hargs hb hu
    simp [CNSIPAMInvoker.Add, hargs, hb, hu]

/-- Witness for C5 at concrete backends. -/
theorem batch_first_singleton_on_unsupported_witness :
    sampleInvoker.Add (envBatch (.error (.other "boom"))) emptyRuleset sampleCfg =
      ⟨.err emptyIPAMAddResult (.requestIPsFailed (.other "boom")), [], [.requestIPs]⟩ ∧
    sampleInvoker.Add ⟨.error .unsupportedAPI, .ok samplePodSecondaryV6, .ok (), .ok ()⟩
        emptyRuleset sampleCfg =
      addWithResponse sampleInvoker emptyRuleset sampleCfg ⟨[samplePodSecondaryV6]⟩
        [.requestIPs, .requestIPAddress] :=
  ⟨batch_first_singleton_on_unsupported.2.2.2.2 sampleInvoker
     (envBatch (.error (.other "boom"))) emptyRuleset sampleCfg sampleArgs (.other "boom")
     rfl rfl rfl,
   batch_first_singleton_on_unsupported.2.2.1 sampleInvoker
     ⟨.error .unsupportedAPI, .ok samplePodSecondaryV6, .ok (), .ok ()⟩ emptyRuleset sampleCfg
     sampleArgs samplePodSecondaryV6 rfl rfl rfl⟩

/-! ## C9 — an all-secondary response dereferences the nil default
result -/

/-- Whether a step result is a success. -/
def exceptIsOk {ε α : Type} : Except ε α → Bool
  | .ok _ => true
  | .error _ => false

/-- A pod-IP-info of secondary type whose address, MAC and routes all
parse. -/
def secondaryParses (p : PodIpInfo) : Bool :=
  p.addressType == cnsSecondary &&
  (podIPConfigGetIPNet p.podIPConfig).isSome &&
  (parseMAC p.macAddress).isSome &&
  exceptIsOk (getRoutes p.routes)

theorem secondary_step_preserves (invoker : CNSIPAMInvoker) (rs : Ruleset) (st : LoopState)
    (p : PodIpInfo) (h : secondaryParses p = true) :
    ∃ st', processPodIPInfo invoker rs st p = .ok st' ∧
      st'.addResult.defaultCniResult = st.addResult.defaultCniResult := by
  simp only [secondaryParses, Bool.and_eq_true, beq_iff_eq] at h
  obtain ⟨⟨⟨hA, hIP⟩, hM⟩, hR⟩ := h
  obtain ⟨⟨ip, ipnet⟩, hip⟩ := Option.isSome_iff_exists.mp hIP
  obtain ⟨mac, hmac⟩ := Option.isSome_iff_exists.mp hM
  obtain ⟨rts, hrts⟩ : ∃ rts, getRoutes p.routes = .ok rts := by
    cases hg : getRoutes p.routes with
    | ok rts => exact ⟨rts, rfl⟩
    | error e => rw [hg] at hR; simp [exceptIsOk] at hR
  have hstep : processPodIPInfo invoker rs st p = .ok
      { st with
        isDefaultInterfaceSet := st.isDefaultInterfaceSet || p.isDefaultInterface
        addResult := { st.addResult with
          cniResults := st.addResult.cniResults ++
            [⟨some ⟨[⟨⟨ip, ipnet.maskLen⟩, none⟩], [p.macAddress], rts⟩,
              cnsSecondary, some mac, p.isDefaultInterface⟩] } } := by
    simp [processPodIPInfo, mkIPResultInfo, hA, hip, hmac, hrts]
  exact ⟨_, hstep, rfl⟩

theorem processLoop_all_secondary (invoker : CNSIPAMInvoker) (rs : Ruleset)
    (ps : List PodIpInfo) :
    ∀ st, (∀ p ∈ ps, secondaryParses p = true) →
      ∃ st', processLoop invoker rs st ps = .ok st' ∧
        st'.addResult.defaultCniResult = st.addResult.defaultCniResult := by
  induction ps with
  | nil => intro st _; exact ⟨st, rfl, rfl⟩
  | cons p rest ih =>
    intro st h
    obtain ⟨st1, hstep, hpres⟩ :=
      secondary_step_preserves invoker rs st p (h p (List.mem_cons_self p rest))
    obtain ⟨st2, hloop, hpres2⟩ := ih st1 fun q hq => h q (List.mem_cons_of_mem p hq)
    refine ⟨st2, ?_, hpres2.trans hpres⟩
    rw [processLoop]
    simp only [hstep]
    exact hloop

/-- C9: when the args envelope is present, the batch request succeeds,
and every pod-IP-info in the response is of secondary type with
address, MAC and routes all parsing, `Add` reaches the post-loop read
of the default interface's route list with the default result still
nil, so the run ends in the nil dereference instead of a normal
return. -/
theorem all_secondary_response_nil_deref (invoker : CNSIPAMInvoker) (env : CNSEnv)
    (rs : Ruleset) (cfg : IPAMAddConfig) (a : CNIArgs) (resp : IPConfigsResponse)
    (hargs : cfg.args = some a) (hb : env.requestIPs = .ok resp)
    (hsec : ∀ p ∈ resp.podIPInfo, secondaryParses p = true) :
    (invoker.Add env rs cfg).outcome = .nilDeref := by
  obtain ⟨st', hloop, hpres⟩ :=
    processLoop_all_secondary invoker rs resp.podIPInfo
      ⟨cfg.options, emptyIPAMAddResult, false, [], [.requestIPs]⟩ hsec
  simp only [CNSIPAMInvoker.Add, hargs, hb, addWithResponse, hloop]
  rw [show st'.addResult.defaultCniResult = emptyIPAMAddResult.defaultCniResult from hpres]
  rfl

/-- Witness for C9: a response holding one parsing secondary
allocation. -/
theorem all_secondary_response_nil_deref_witness :
    (sampleInvoker.Add (envBatch (.ok ⟨[samplePodSecondaryV6]⟩)) emptyRuleset
       sampleCfg).outcome = .nilDeref :=
  all_secondary_response_nil_deref sampleInvoker (envBatch (.ok ⟨[samplePodSecondaryV6]⟩))
    emptyRuleset sampleCfg sampleArgs ⟨[samplePodSecondaryV6]⟩ rfl rfl (by decide)

/-! ## Characterisation of the default branch -/

/-- A non-secondary allocation is processed by the default branch. -/
theorem processPodIPInfo_default (invoker : CNSIPAMInvoker) (rs : Ruleset) (st : LoopState)
    (p : PodIpInfo) (h : ¬p.addressType = cnsSecondary) :
    processPodIPInfo invoker rs st p = defaultBranch invoker rs st (mkIPResultInfo p) := by
  simp [processPodIPInfo, mkIPResultInfo, h]

/-- Full success run of the default branch outside overlay mode: all
parses succeed, the SNAT key is written (v4 primary), the default
result gains the allocation, the host subnet is recorded, and host
programming runs, writing the routes and iptables keys. -/
theorem defaultBranch_ok (invoker : CNSIPAMInvoker) (rs : Ruleset) (st : LoopState)
    (info : IPResultInfo) (prim ip gw pod hostIP hip hgw : IPAddr) (ncNet hostNet : GoIPNet)
    (rts : List CNIRoute)
    (hPrim : parseIP info.ncPrimaryIP = some prim) (hPrimV4 : prim.isV4 = true)
    (hCIDR : parseCIDR (info.podIPAddress ++ "/" ++ toString info.ncSubnetPrefixLength) =
      some (ip, ncNet))
    (hGw : parseIP info.ncGatewayIPAddress = some gw)
    (hPod : parseIP info.podIPAddress = some pod)
    (hRts : getRoutes info.routes = .ok rts)
    (hHost : parseCIDR info.hostSubnet = some (hostIP, hostNet))
    (hM1 : invoker.ipamMode ≠ v4OverlayMode) (hM2 : invoker.ipamMode ≠ dualStackOverlayMode)
    (hM3 : invoker.ipamMode ≠ overlayMode)
    (hHIP : parseIP info.hostPrimaryIP = some hip)
    (hHGW : parseIP info.hostGateway = some hgw) :
    defaultBranch invoker rs st info = .ok
      { options := setOpt (setOpt (setOpt st.options SNATIPKey (.str info.ncPrimaryIP))
                     RoutesKey (.routeInfos [⟨ncNet, hgw⟩]))
                   IPTablesKey (.iptEntries (hostProgCmds rs ncNet info))
        addResult := { st.addResult with
          defaultCniResult := { st.addResult.defaultCniResult with
            ipResult := some
              { ips := (st.addResult.defaultCniResult.ipResult.getD emptyCurrResult).ips ++
                  [⟨⟨ip, ncNet.maskLen⟩, some gw⟩]
                interfaces :=
                  (st.addResult.defaultCniResult.ipResult.getD emptyCurrResult).interfaces
                routes := (st.addResult.defaultCniResult.ipResult.getD emptyCurrResult).routes ++
                  rts } }
          ipv6Enabled := if pod.isV4 then st.addResult.ipv6Enabled else true
          hostSubnetPrefix := some hostNet }
        isDefaultInterfaceSet := st.isDefaultInterfaceSet
        defaultRoutes := st.defaultRoutes ++
          [⟨(if pod.isV4 then ⟨.v4 0, 0⟩ else ⟨.v6 0, 0⟩ : GoIPNet), some gw⟩]
        calls := st.calls ++ [.hostProgramming] } := by
  simp only [defaultBranch, ncGatewayOf, defaultBlock, setHostOptions, snatOptions, hPrim,
    hPrimV4, hCIDR, hGw, hPod, hRts, hHost, hHIP, hHGW, if_pos, if_true]
  simp [hM1, hM2, hM3]

/-- A secondary allocation whose MAC does not parse fails the whole
add, leaving the options map and trace as they were. -/
theorem secondary_bad_mac_step (invoker : CNSIPAMInvoker) (rs : Ruleset) (st : LoopState)
    (p : PodIpInfo) (ipr : IPAddr × GoIPNet) (hA : p.addressType = cnsSecondary)
    (hIP : podIPConfigGetIPNet p.podIPConfig = some ipr)
    (hM : parseMAC p.macAddress = none) :
    processPodIPInfo invoker rs st p = .fail (.invalidMac p.macAddress) st.options st.calls := by
  simp [processPodIPInfo, mkIPResultInfo, hA, hIP, hM]

/-! ## C4 — overlay gateway synthesis -/

/-- C4: for a default-type allocation whose nc-gateway-ip does not
parse: outside every overlay mode the branch fails with the
invalid-gateway error; in an overlay mode with a v4 pod IP the branch
succeeds with the synthesized gateway being the first usable address of
the nc-subnet (subnet base plus one) and no host programming; in an
overlay mode with a v6 pod IP it succeeds with the fixed link-local
gateway, which is the parse of `fe80::1234:5678:9abc`. -/
theorem overlay_gateway_synthesis :
    (∀ (invoker : CNSIPAMInvoker) (rs : Ruleset) (st : LoopState) (info : IPResultInfo)
       (ip : IPAddr) (ncNet : GoIPNet),
      parseCIDR (info.podIPAddress ++ "/" ++ toString info.ncSubnetPrefixLength) =
        some (ip, ncNet) →
      parseIP info.ncGatewayIPAddress = none →
      invoker.ipamMode ≠ v4OverlayMode → invoker.ipamMode ≠ dualStackOverlayMode →
      invoker.ipamMode ≠ overlayMode →
      defaultBranch invoker rs st info =
        .fail (.invalidGateway info.ncGatewayIPAddress) (snatOptions st.options info)
          st.calls) ∧
    (∀ (invoker : CNSIPAMInvoker) (rs : Ruleset) (st : LoopState) (info : IPResultInfo)
       (ip pod hostIP : IPAddr) (b blen : Nat) (hostNet : GoIPNet) (rts : List CNIRoute),
      (invoker.ipamMode = v4OverlayMode ∨ invoker.ipamMode = dualStackOverlayMode ∨
        invoker.ipamMode = overlayMode) →
      parseCIDR (info.podIPAddress ++ "/" ++ toString info.ncSubnetPrefixLength) =
        some (ip, ⟨.v4 b, blen⟩) →
      parseIP info.ncGatewayIPAddress = none →
      parseIP info.podIPAddress = some pod → pod.isV4 = true →
      getRoutes info.routes = .ok rts →
      parseCIDR info.hostSubnet = some (hostIP, hostNet) →
      defaultBranch invoker rs st info = .ok
        { options := snatOptions st.options info
          addResult := { st.addResult with
            defaultCniResult := { st.addResult.defaultCniResult with
              ipResult := some
                { ips := (st.addResult.defaultCniResult.ipResult.getD emptyCurrResult).ips ++
                    [⟨⟨ip, blen⟩, some (.v4 (b + 1))⟩]
                  interfaces :=
                    (st.addResult.defaultCniResult.ipResult.getD emptyCurrResult).interfaces
                  routes :=
                    (st.addResult.defaultCniResult.ipResult.getD emptyCurrResult).routes ++
                      rts } }
            hostSubnetPrefix := some hostNet }
          isDefaultInterfaceSet := st.isDefaultInterfaceSet
          defaultRoutes := st.defaultRoutes ++ [⟨⟨.v4 0, 0⟩, some (.v4 (b + 1))⟩]
          calls := st.calls }) ∧
    (∀ (invoker : CNSIPAMInvoker) (rs : Ruleset) (st : LoopState) (info : IPResultInfo)
       (ip pod hostIP : IPAddr) (ncNet hostNet : GoIPNet) (rts : List CNIRoute),
      (invoker.ipamMode = v4OverlayMode ∨ invoker.ipamMode = dualStackOverlayMode ∨
        invoker.ipamMode = overlayMode) →
      parseCIDR (info.podIPAddress ++ "/" ++ toString info.ncSubnetPrefixLength) =
        some (ip, ncNet) →
      parseIP info.ncGatewayIPAddress = none →
      parseIP info.podIPAddress = some pod → pod.isV4 = false →
      getRoutes info.routes = .ok rts →
      parseCIDR info.hostSubnet = some (hostIP, hostNet) →
      defaultBranch invoker rs st info = .ok
        { options := snatOptions st.options info
          addResult := { st.addResult with
            defaultCniResult := { st.addResult.defaultCniResult with
              ipResult := some
                { ips := (st.addResult.defaultCniResult.ipResult.getD emptyCurrResult).ips ++
                    [⟨⟨ip, ncNet.maskLen⟩,
                      some (.v6 338288524927261089654018916857346038460)⟩]
                  interfaces :=
                    (st.addResult.defaultCniResult.ipResult.getD emptyCurrResult).interfaces
                  routes :=
                    (st.addResult.defaultCniResult.ipResult.getD emptyCurrResult).routes ++
                      rts } }
            ipv6Enabled := true
            hostSubnetPrefix := some hostNet }
          isDefaultInterfaceSet := st.isDefaultInterfaceSet
          defaultRoutes := st.defaultRoutes ++
            [⟨⟨.v6 0, 0⟩, some (.v6 338288524927261089654018916857346038460)⟩]
          calls := st.calls }) ∧
    parseIP overlayGatewayV6IP = some (.v6 338288524927261089654018916857346038460) := by
  have hV6 : parseIP overlayGatewayV6IP =
      some (.v6 338288524927261089654018916857346038460) := by decide
  refine ⟨?_, ?_, ?_, hV6⟩
  · intro invoker rs st info ip ncNet hCIDR hGwNone hM1 hM2 hM3
    simp [defaultBranch, ncGatewayOf, hCIDR, hGwNone, hM1, hM2, hM3]
  · intro invoker rs st info ip pod hostIP b blen hostNet rts hMode hCIDR hGwNone hPod
      hPodV4 hRts hHost
    have hcnd : ¬(invoker.ipamMode ≠ v4OverlayMode ∧ invoker.ipamMode ≠ dualStackOverlayMode ∧
        invoker.ipamMode ≠ overlayMode) := by
      rcases hMode with hm | hm | hm
      · exact fun hc => hc.1 hm
      · exact fun hc => hc.2.1 hm
      · exact fun hc => hc.2.2 hm
    simp [defaultBranch, ncGatewayOf, defaultBlock, setHostOptions, hCIDR, hGwNone, hPod,
      hPodV4, hRts, hHost, hcnd, getOverlayGateway, Except.map]
  · intro invoker rs st info ip pod hostIP ncNet hostNet rts hMode hCIDR hGwNone hPod
      hPodV6 hRts hHost
    have hcnd : ¬(invoker.ipamMode ≠ v4OverlayMode ∧ invoker.ipamMode ≠ dualStackOverlayMode ∧
        invoker.ipamMode ≠ overlayMode) := by
      rcases hMode with hm | hm | hm
      · exact fun hc => hc.1 hm
      · exact fun hc => hc.2.1 hm
      · exact fun hc => hc.2.2 hm
    simp [defaultBranch, ncGatewayOf, defaultBlock, setHostOptions, hCIDR, hGwNone, hPod,
      hPodV6, hRts, hHost, hcnd, hV6]

/-- An empty loop state, as at the start of a fresh add with no prior
trace. -/
def sampleLoopState : LoopState := ⟨[], emptyIPAMAddResult, false, [], []⟩

/-- A default-type overlay allocation with an empty gateway and a v4
pod IP (spec scenario S5). -/
def samplePodOverlayV4 : PodIpInfo :=
  { podIPConfig := ⟨"10.1.2.3", 24⟩
    networkContainerPrimaryIPConfig := ⟨⟨"10.1.2.0", 24⟩, ""⟩
    hostPrimaryIPInfo := sampleHostInfo
    addressType := ""
    macAddress := ""
    isDefaultInterface := false
    routes := [] }

/-- The same allocation with a v6 pod IP. -/
def samplePodOverlayV6 : PodIpInfo :=
  { samplePodOverlayV4 with podIPConfig := ⟨"fc00::2", 120⟩ }

/-- Witness for C4: the three cases at concrete allocations. -/
theorem overlay_gateway_synthesis_witness :
    defaultBranch sampleInvoker emptyRuleset sampleLoopState (mkIPResultInfo samplePodOverlayV4) =
      .fail (.invalidGateway "")
        (snatOptions sampleLoopState.options (mkIPResultInfo samplePodOverlayV4)) [] ∧
    (∃ st', defaultBranch overlayInvoker emptyRuleset sampleLoopState
      (mkIPResultInfo samplePodOverlayV4) = .ok st') ∧
    (∃ st', defaultBranch overlayInvoker emptyRuleset sampleLoopState
      (mkIPResultInfo samplePodOverlayV6) = .ok st') :=
  ⟨overlay_gateway_synthesis.1 sampleInvoker emptyRuleset sampleLoopState
     (mkIPResultInfo samplePodOverlayV4) (.v4 167838211) ⟨.v4 167838208, 24⟩
     (by decide) (by decide) (by decide) (by decide) (by decide),
   ⟨_, overlay_gateway_synthesis.2.1 overlayInvoker emptyRuleset sampleLoopState
     (mkIPResultInfo samplePodOverlayV4) (.v4 167838211) (.v4 167838211) (.v4 182452224)
     167838208 24 ⟨.v4 182452224, 16⟩ [] (Or.inr (Or.inr rfl))
     (by decide) (by decide) (by decide) (by decide) (by decide) (by decide)⟩,
   ⟨_, overlay_gateway_synthesis.2.2.1 overlayInvoker emptyRuleset sampleLoopState
     (mkIPResultInfo samplePodOverlayV6) (.v6 334965454937798799971759379190646833154)
     (.v6 334965454937798799971759379190646833154) (.v4 182452224)
     ⟨.v6 334965454937798799971759379190646833152, 24⟩ ⟨.v4 182452224, 16⟩ []
     (Or.inr (Or.inr rfl))
     (by decide) (by decide) (by decide) (by decide) (by decide) (by decide)⟩⟩

/-! ## C1 — every default allocation writes the options map -/

/-- C1 counterexample: with two default-type allocations in one
response, the first allocation's snat-ip write (`10.240.0.4`, as the
single-allocation run shows) is overwritten by the second allocation's
nc-primary-ip `10.241.0.4`, and host programming is invoked once per
default allocation — the trace holds two host-programming events — so
the first default does not own the options map. -/
theorem snat_rewritten_by_second_default :
    lookupOpt (sampleInvoker.Add (envBatch (.ok ⟨[samplePodDefault]⟩)) emptyRuleset
        sampleCfg).options SNATIPKey = some (.str "10.240.0.4") ∧
    lookupOpt (sampleInvoker.Add (envBatch (.ok ⟨[samplePodDefault, samplePodDefault2]⟩))
        emptyRuleset sampleCfg).options SNATIPKey = some (.str "10.241.0.4") ∧
    (sampleInvoker.Add (envBatch (.ok ⟨[samplePodDefault, samplePodDefault2]⟩))
        emptyRuleset sampleCfg).calls =
      [.requestIPs, .hostProgramming, .hostProgramming] := by
  refine ⟨by decide, by decide, by decide⟩

/-- A default-type (non-secondary) allocation every parse of which
succeeds, with a v4 nc-primary-ip — the kind the default branch
processes in full outside overlay modes. -/
def defaultParses (p : PodIpInfo) : Bool :=
  let info := mkIPResultInfo p
  !(p.addressType == cnsSecondary) &&
  (match parseIP info.ncPrimaryIP with
   | some prim => prim.isV4
   | none => false) &&
  (parseCIDR (info.podIPAddress ++ "/" ++ toString info.ncSubnetPrefixLength)).isSome &&
  (parseIP info.ncGatewayIPAddress).isSome &&
  (parseIP info.podIPAddress).isSome &&
  exceptIsOk (getRoutes info.routes) &&
  (parseCIDR info.hostSubnet).isSome &&
  (parseIP info.hostPrimaryIP).isSome &&
  (parseIP info.hostGateway).isSome

/-- The last default-type allocation of a response, in response
order. -/
def lastDefault : List PodIpInfo → Option PodIpInfo
  | [] => none
  | p :: rest =>
    match lastDefault rest with
    | some d => some d
    | none => if p.addressType == cnsSecondary then none else some p

/-- The masked nc-subnet a default allocation's pod CIDR parses to. -/
def ncNetOf (p : PodIpInfo) : GoIPNet :=
  ((parseCIDR ((mkIPResultInfo p).podIPAddress ++ "/" ++
      toString (mkIPResultInfo p).ncSubnetPrefixLength)).getD (.v4 0, ⟨.v4 0, 0⟩)).2

/-- The parsed host gateway of an allocation. -/
def hostGatewayOf (p : PodIpInfo) : IPAddr :=
  (parseIP (mkIPResultInfo p).hostGateway).getD (.v4 0)

theorem secondary_step_full (invoker : CNSIPAMInvoker) (rs : Ruleset) (st : LoopState)
    (p : PodIpInfo) (h : secondaryParses p = true) :
    ∃ st', processPodIPInfo invoker rs st p = .ok st' ∧
      st'.options = st.options ∧ st'.calls = st.calls ∧
      st'.addResult.defaultCniResult = st.addResult.defaultCniResult := by
  simp only [secondaryParses, Bool.and_eq_true, beq_iff_eq] at h
  obtain ⟨⟨⟨hA, hIP⟩, hM⟩, hR⟩ := h
  obtain ⟨⟨ip, ipnet⟩, hip⟩ := Option.isSome_iff_exists.mp hIP
  obtain ⟨mac, hmac⟩ := Option.isSome_iff_exists.mp hM
  obtain ⟨rts, hrts⟩ : ∃ rts, getRoutes p.routes = .ok rts := by
    cases hg : getRoutes p.routes with
    | ok rts => exact ⟨rts, rfl⟩
    | error e => rw [hg] at hR; simp [exceptIsOk] at hR
  have hstep : processPodIPInfo invoker rs st p = .ok
      { st with
        isDefaultInterfaceSet := st.isDefaultInterfaceSet || p.isDefaultInterface
        addResult := { st.addResult with
          cniResults := st.addResult.cniResults ++
            [⟨some ⟨[⟨⟨ip, ipnet.maskLen⟩, none⟩], [p.macAddress], rts⟩,
              cnsSecondary, some mac, p.isDefaultInterface⟩] } } := by
    simp [processPodIPInfo, mkIPResultInfo, hA, hip, hmac, hrts]
  exact ⟨_, hstep, rfl, rfl, rfl⟩

theorem default_step_writes (invoker : CNSIPAMInvoker) (rs : Ruleset) (st : LoopState)
    (p : PodIpInfo)
    (hM1 : invoker.ipamMode ≠ v4OverlayMode) (hM2 : invoker.ipamMode ≠ dualStackOverlayMode)
    (hM3 : invoker.ipamMode ≠ overlayMode) (hD : defaultParses p = true) :
    ∃ st', processPodIPInfo invoker rs st p = .ok st' ∧
      st'.options = setOpt (setOpt (setOpt st.options SNATIPKey
          (.str (mkIPResultInfo p).ncPrimaryIP))
        RoutesKey (.routeInfos [⟨ncNetOf p, hostGatewayOf p⟩]))
        IPTablesKey (.iptEntries (hostProgCmds rs (ncNetOf p) (mkIPResultInfo p))) ∧
      st'.calls = st.calls ++ [CallEvent.hostProgramming] ∧
      st'.addResult.defaultCniResult.ipResult.isSome = true := by
  simp only [defaultParses, Bool.and_eq_true] at hD
  obtain ⟨⟨⟨⟨⟨⟨⟨⟨hA, hPrimB⟩, hCIDRs⟩, hGws⟩, hPods⟩, hRtsB⟩, hHosts⟩, hHIPs⟩, hHGWs⟩ := hD
  have hA' : ¬p.addressType = cnsSecondary := by
    simpa [beq_iff_eq] using hA
  obtain ⟨prim, hPrim, hPrimV4⟩ : ∃ prim,
      parseIP (mkIPResultInfo p).ncPrimaryIP = some prim ∧ prim.isV4 = true := by
    cases hp : parseIP (mkIPResultInfo p).ncPrimaryIP with
    | none => rw [hp] at hPrimB; simp at hPrimB
    | some prim => rw [hp] at hPrimB; exact ⟨prim, rfl, hPrimB⟩
  obtain ⟨⟨ip, ncNet⟩, hCIDR⟩ := Option.isSome_iff_exists.mp hCIDRs
  obtain ⟨gw, hGw⟩ := Option.isSome_iff_exists.mp hGws
  obtain ⟨pod, hPod⟩ := Option.isSome_iff_exists.mp hPods
  obtain ⟨rts, hRts⟩ : ∃ rts, getRoutes (mkIPResultInfo p).routes = .ok rts := by
    cases hg : getRoutes (mkIPResultInfo p).routes with
    | ok rts => exact ⟨rts, rfl⟩
    | error e => rw [hg] at hRtsB; simp [exceptIsOk] at hRtsB
  obtain ⟨⟨hostIP, hostNet⟩, hHost⟩ := Option.isSome_iff_exists.mp hHosts
  obtain ⟨hip, hHIP⟩ := Option.isSome_iff_exists.mp hHIPs
  obtain ⟨hgw, hHGW⟩ := Option.isSome_iff_exists.mp hHGWs
  have hstep := (processPodIPInfo_default invoker rs st p hA').trans
    (defaultBranch_ok invoker rs st (mkIPResultInfo p) prim ip gw pod hostIP hip hgw
      ncNet hostNet rts hPrim hPrimV4 hCIDR hGw hPod hRts hHost hM1 hM2 hM3 hHIP hHGW)
  have e1 : ncNetOf p = ncNet := by simp [ncNetOf, hCIDR]
  have e2 : hostGatewayOf p = hgw := by simp [hostGatewayOf, hHGW]
  exact ⟨_, hstep, by rw [e1, e2], rfl, rfl⟩

/-- Effect of a fully parseable response on the options map and trace:
the loop succeeds, the three option keys hold the values of the last
default allocation (untouched when there is none), the default result
pointer is set iff a default was seen, and the trace gains one
host-programming event per default allocation. -/
theorem processLoop_option_writes (invoker : CNSIPAMInvoker) (rs : Ruleset)
    (hM1 : invoker.ipamMode ≠ v4OverlayMode) (hM2 : invoker.ipamMode ≠ dualStackOverlayMode)
    (hM3 : invoker.ipamMode ≠ overlayMode) (ps : List PodIpInfo) :
    ∀ st, (∀ p ∈ ps, secondaryParses p = true ∨ defaultParses p = true) →
      ∃ st', processLoop invoker rs st ps = .ok st' ∧
        (match lastDefault ps with
         | none =>
           st'.options = st.options ∧
           st'.addResult.defaultCniResult.ipResult = st.addResult.defaultCniResult.ipResult
         | some d =>
           lookupOpt st'.options SNATIPKey = some (.str (mkIPResultInfo d).ncPrimaryIP) ∧
           lookupOpt st'.options RoutesKey =
             some (.routeInfos [⟨ncNetOf d, hostGatewayOf d⟩]) ∧
           lookupOpt st'.options IPTablesKey =
             some (.iptEntries (hostProgCmds rs (ncNetOf d) (mkIPResultInfo d))) ∧
           st'.addResult.defaultCniResult.ipResult.isSome = true) ∧
        st'.calls.count CallEvent.hostProgramming =
          st.calls.count CallEvent.hostProgramming +
            ps.countP (fun p => !(p.addressType == cnsSecondary)) := by
  induction ps with
  | nil =>
    intro st _
    exact ⟨st, rfl, ⟨rfl, rfl⟩, by simp⟩
  | cons p rest ih =>
    intro st hall
    rcases hall p (List.mem_cons_self p rest) with hsec | hdef
    · obtain ⟨st1, hstep, hopt1, hcall1, hdcr1⟩ := secondary_step_full invoker rs st p hsec
      obtain ⟨st', hloop, hmatch, hcount⟩ :=
        ih st1 fun q hq => hall q (List.mem_cons_of_mem p hq)
      have hbeq : (p.addressType == cnsSecondary) = true := by
        simp only [secondaryParses, Bool.and_eq_true, beq_iff_eq] at hsec
        simp [hsec.1.1.1]
      refine ⟨st', ?_, ?_, ?_⟩
      · rw [processLoop]
        simp only [hstep]
        exact hloop
      · simp only [lastDefault]
        cases hld : lastDefault rest with
        | some d => rw [hld] at hmatch; simpa using hmatch
        | none =>
          rw [hld] at hmatch
          simp only [hbeq, if_true]
          exact ⟨hmatch.1.trans hopt1, hmatch.2.trans (by rw [hdcr1])⟩
      · rw [hcount, hcall1, List.countP_cons]
        simp [hbeq]
    · obtain ⟨st1, hstep, hopt1, hcall1, hsome1⟩ :=
        default_step_writes invoker rs st p hM1 hM2 hM3 hdef
      obtain ⟨st', hloop, hmatch, hcount⟩ :=
        ih st1 fun q hq => hall q (List.mem_cons_of_mem p hq)
      have hbeq : (p.addressType == cnsSecondary) = false := by
        simp only [defaultParses, Bool.and_eq_true] at hdef
        simpa using hdef.1.1.1.1.1.1.1.1
      refine ⟨st', ?_, ?_, ?_⟩
      · rw [processLoop]
        simp only [hstep]
        exact hloop
      · simp only [lastDefault]
        cases hld : lastDefault rest with
        | some d => rw [hld] at hmatch; simpa using hmatch
        | none =>
          rw [hld] at hmatch
          simp only [hbeq, Bool.false_eq_true, if_false]
          obtain ⟨ho, hi⟩ := hmatch
          rw [ho, hopt1]
          refine ⟨?_, ?_, ?_, ?_⟩
          · rw [lookupOpt_setOpt_ne _ _ (by decide), lookupOpt_setOpt_ne _ _ (by decide),
              lookupOpt_setOpt_self]
          · rw [lookupOpt_setOpt_ne _ _ (by decide), lookupOpt_setOpt_self]
          · rw [lookupOpt_setOpt_self]
          · rw [hi]; exact hsome1
      · rw [hcount, hcall1, List.countP_cons]
        simp [hbeq, List.count_append, Nat.add_assoc, Nat.add_comm]

/-- C1 as amended: for every Remote (CNS) Add whose backend response
holds fully parseable allocations (defaults with v4 nc-primary-ips,
outside overlay modes) with at least one default-type allocation —
in particular whenever more than one is of type default, in any mix
with secondaries — each default allocation writes the options map in
response order, so the add succeeds with the snat-ip, routes and
iptables-commands entries holding the values of the LAST default
allocation, and host programming has been invoked once per default
allocation. -/
theorem later_defaults_rewrite_options
    (invoker : CNSIPAMInvoker) (env : CNSEnv) (rs : Ruleset) (cfg : IPAMAddConfig)
    (a : CNIArgs) (resp : IPConfigsResponse) (d : PodIpInfo)
    (hargs : cfg.args = some a)
    (hb : env.requestIPs = .ok resp)
    (hM1 : invoker.ipamMode ≠ v4OverlayMode) (hM2 : invoker.ipamMode ≠ dualStackOverlayMode)
    (hM3 : invoker.ipamMode ≠ overlayMode)
    (hall : ∀ p ∈ resp.podIPInfo, secondaryParses p = true ∨ defaultParses p = true)
    (hlast : lastDefault resp.podIPInfo = some d) :
    (∃ r, (invoker.Add env rs cfg).outcome = .ok r) ∧
    lookupOpt (invoker.Add env rs cfg).options SNATIPKey =
      some (.str (mkIPResultInfo d).ncPrimaryIP) ∧
    lookupOpt (invoker.Add env rs cfg).options RoutesKey =
      some (.routeInfos [⟨ncNetOf d, hostGatewayOf d⟩]) ∧
    lookupOpt (invoker.Add env rs cfg).options IPTablesKey =
      some (.iptEntries (hostProgCmds rs (ncNetOf d) (mkIPResultInfo d))) ∧
    (invoker.Add env rs cfg).calls.count CallEvent.hostProgramming =
      resp.podIPInfo.countP (fun p => !(p.addressType == cnsSecondary)) := by
  obtain ⟨st', hloop, hmatch, hcount⟩ :=
    processLoop_option_writes invoker rs hM1 hM2 hM3 resp.podIPInfo
      ⟨cfg.options, emptyIPAMAddResult, false, [], [.requestIPs]⟩ hall
  rw [hlast] at hmatch
  obtain ⟨hS, hR, hI, hSome⟩ := hmatch
  obtain ⟨ipr, hipr⟩ := Option.isSome_iff_exists.mp hSome
  have hAdd : invoker.Add env rs cfg = addWithResponse invoker rs cfg resp
      [.requestIPs] := by
    simp [CNSIPAMInvoker.Add, hargs, hb]
  rw [hAdd]
  simp only [addWithResponse, hloop, hipr]
  refine ⟨⟨_, rfl⟩, hS, hR, hI, ?_⟩
  simpa using hcount

/-- Witness for C1's amended statement at a concrete three-allocation
response — default, secondary, default — whose last default is the
second default allocation. -/
theorem later_defaults_rewrite_options_witness :
    (∃ r, (sampleInvoker.Add
        (envBatch (.ok ⟨[samplePodDefault, samplePodSecondaryV6, samplePodDefault2]⟩))
        emptyRuleset sampleCfg).outcome = .ok r) ∧
    lookupOpt (sampleInvoker.Add
        (envBatch (.ok ⟨[samplePodDefault, samplePodSecondaryV6, samplePodDefault2]⟩))
        emptyRuleset sampleCfg).options SNATIPKey =
      some (.str (mkIPResultInfo samplePodDefault2).ncPrimaryIP) ∧
    lookupOpt (sampleInvoker.Add
        (envBatch (.ok ⟨[samplePodDefault, samplePodSecondaryV6, samplePodDefault2]⟩))
        emptyRuleset sampleCfg).options RoutesKey =
      some (.routeInfos [⟨ncNetOf samplePodDefault2, hostGatewayOf samplePodDefault2⟩]) ∧
    lookupOpt (sampleInvoker.Add
        (envBatch (.ok ⟨[samplePodDefault, samplePodSecondaryV6, samplePodDefault2]⟩))
        emptyRuleset sampleCfg).options IPTablesKey =
      some (.iptEntries (hostProgCmds emptyRuleset (ncNetOf samplePodDefault2)
        (mkIPResultInfo samplePodDefault2))) ∧
    (sampleInvoker.Add
        (envBatch (.ok ⟨[samplePodDefault, samplePodSecondaryV6, samplePodDefault2]⟩))
        emptyRuleset sampleCfg).calls.count CallEvent.hostProgramming =
      [samplePodDefault, samplePodSecondaryV6, samplePodDefault2].countP
        (fun p => !(p.addressType == cnsSecondary)) :=
  later_defaults_rewrite_options sampleInvoker
    (envBatch (.ok ⟨[samplePodDefault, samplePodSecondaryV6, samplePodDefault2]⟩))
    emptyRuleset sampleCfg sampleArgs
    ⟨[samplePodDefault, samplePodSecondaryV6, samplePodDefault2]⟩ samplePodDefault2
    rfl rfl (by decide) (by decide) (by decide) (by decide) (by decide)

/-! ## C10 — a failed Add keeps the earlier options writes -/

/-- C10: when the first allocation of the response is a fully
successful default (non-overlay mode) and the second is a secondary
allocation whose MAC does not parse, `Add` fails with the invalid-MAC
error and the empty `IPAMAddResult`, yet the caller's options map keeps
the first allocation's snat-ip, routes and iptables-commands writes,
and host programming has already run. -/
theorem failed_add_retains_options_writes
    (invoker : CNSIPAMInvoker) (env : CNSEnv) (rs : Ruleset) (cfg : IPAMAddConfig)
    (a : CNIArgs) (p1 p2 : PodIpInfo)
    (prim1 ip1 gw1 pod1 hostIP1 hip1 hgw1 : IPAddr) (ncNet1 hostNet1 : GoIPNet)
    (rts1 : List CNIRoute) (ipr2 : IPAddr × GoIPNet)
    (hargs : cfg.args = some a)
    (hb : env.requestIPs = .ok ⟨[p1, p2]⟩)
    (hA1 : ¬p1.addressType = cnsSecondary)
    (hM1 : invoker.ipamMode ≠ v4OverlayMode) (hM2 : invoker.ipamMode ≠ dualStackOverlayMode)
    (hM3 : invoker.ipamMode ≠ overlayMode)
    (hPrim1 : parseIP (mkIPResultInfo p1).ncPrimaryIP = some prim1)
    (hPrimV41 : prim1.isV4 = true)
    (hCIDR1 : parseCIDR ((mkIPResultInfo p1).podIPAddress ++ "/" ++
      toString (mkIPResultInfo p1).ncSubnetPrefixLength) = some (ip1, ncNet1))
    (hGw1 : parseIP (mkIPResultInfo p1).ncGatewayIPAddress = some gw1)
    (hPod1 : parseIP (mkIPResultInfo p1).podIPAddress = some pod1)
    (hRts1 : getRoutes (mkIPResultInfo p1).routes = .ok rts1)
    (hHost1 : parseCIDR (mkIPResultInfo p1).hostSubnet = some (hostIP1, hostNet1))
    (hHIP1 : parseIP (mkIPResultInfo p1).hostPrimaryIP = some hip1)
    (hHGW1 : parseIP (mkIPResultInfo p1).hostGateway = some hgw1)
    (hA2 : p2.addressType = cnsSecondary)
    (hIP2 : podIPConfigGetIPNet p2.podIPConfig = some ipr2)
    (hMac2 : parseMAC p2.macAddress = none) :
    invoker.Add env rs cfg =
      ⟨.err emptyIPAMAddResult (.invalidMac p2.macAddress),
       setOpt (setOpt (setOpt cfg.options SNATIPKey (.str (mkIPResultInfo p1).ncPrimaryIP))
           RoutesKey (.routeInfos [⟨ncNet1, hgw1⟩]))
         IPTablesKey (.iptEntries (hostProgCmds rs ncNet1 (mkIPResultInfo p1))),
       [.requestIPs, .hostProgramming]⟩ ∧
    lookupOpt (invoker.Add env rs cfg).options SNATIPKey =
      some (.str (mkIPResultInfo p1).ncPrimaryIP) := by
  have s1 := defaultBranch_ok invoker rs ⟨cfg.options, emptyIPAMAddResult, false, [],
    [.requestIPs]⟩ (mkIPResultInfo p1) prim1 ip1 gw1 pod1 hostIP1 hip1 hgw1 ncNet1 hostNet1
    rts1 hPrim1 hPrimV41 hCIDR1 hGw1 hPod1 hRts1 hHost1 hM1 hM2 hM3 hHIP1 hHGW1
  have s2 : ∀ st : LoopState, processPodIPInfo invoker rs st p2 =
      .fail (.invalidMac p2.macAddress) st.options st.calls :=
    fun st => secondary_bad_mac_step invoker rs st p2 ipr2 hA2 hIP2 hMac2
  have hAdd : invoker.Add env rs cfg = addWithResponse invoker rs cfg ⟨[p1, p2]⟩
      [.requestIPs] := by
    simp [CNSIPAMInvoker.Add, hargs, hb]
  rw [hAdd]
  simp only [addWithResponse, processLoop,
    processPodIPInfo_default invoker rs _ p1 hA1, s1, s2]
  refine ⟨rfl, ?_⟩
  rw [lookupOpt_setOpt_ne _ _ (by decide), lookupOpt_setOpt_ne _ _ (by decide),
    lookupOpt_setOpt_self]

/-- Witness for C10 at a concrete response: first a good default, then
a secondary with a bad MAC. -/
theorem failed_add_retains_options_writes_witness :
    sampleInvoker.Add (envBatch (.ok ⟨[samplePodDefault, samplePodSecondaryBadMac]⟩))
        emptyRuleset sampleCfg =
      ⟨.err emptyIPAMAddResult (.invalidMac "not-a-mac"),
       setOpt (setOpt (setOpt [] SNATIPKey
           (.str (mkIPResultInfo samplePodDefault).ncPrimaryIP))
           RoutesKey (.routeInfos [⟨⟨.v4 183500800, 24⟩, .v4 182452225⟩]))
         IPTablesKey (.iptEntries (hostProgCmds emptyRuleset ⟨.v4 183500800, 24⟩
           (mkIPResultInfo samplePodDefault))),
       [.requestIPs, .hostProgramming]⟩ ∧
    lookupOpt (sampleInvoker.Add
        (envBatch (.ok ⟨[samplePodDefault, samplePodSecondaryBadMac]⟩))
        emptyRuleset sampleCfg).options SNATIPKey =
      some (.str (mkIPResultInfo samplePodDefault).ncPrimaryIP) :=
  failed_add_retains_options_writes sampleInvoker
    (envBatch (.ok ⟨[samplePodDefault, samplePodSecondaryBadMac]⟩)) emptyRuleset sampleCfg
    sampleArgs samplePodDefault samplePodSecondaryBadMac
    (.v4 183500804) (.v4 183500810) (.v4 183500801) (.v4 183500810) (.v4 182452224)
    (.v4 182452229) (.v4 182452225) ⟨.v4 183500800, 24⟩ ⟨.v4 182452224, 16⟩ []
    (.v6 334965454937798799971759379190646833154,
      ⟨.v6 334965454937798799971759379190646833152, 120⟩)
    rfl rfl (by decide) (by decide) (by decide) (by decide) (by decide) (by decide)
    (by decide) (by decide) (by decide) (by decide) (by decide) (by decide) (by decide)
    (by decide) (by decide) (by decide)

/-! ## C3 — which allocations set the ipv6-enabled flag -/

/-- Some allocated address in a pod-IP-info is IPv6. -/
def entryHasV6 (p : PodIpInfo) : Bool :=
  match parseIP p.podIPConfig.ipAddress with
  | some ip => !ip.isV4
  | none => false

/-- A default-type (non-secondary) allocation whose pod IP is IPv6 —
the only kind of allocation whose processing sets `ipv6Enabled`. -/
def entryIsV6Default (p : PodIpInfo) : Bool :=
  !(p.addressType == cnsSecondary) &&
    (match parseIP p.podIPConfig.ipAddress with
     | some ip => !ip.isV4
     | none => false)

/-- The ipv6-enabled flag of an add outcome, when it is a success. -/
def AddOutcome.ipv6Flag : AddOutcome → Option Bool
  | .ok r => some r.ipv6Enabled
  | _ => none

/-- C3 counterexample: a response with a v4 default allocation and an
IPv6 secondary allocation completes successfully with `ipv6Enabled`
false, although one of the allocated addresses is IPv6 — a secondary
IPv6 allocation never sets the flag. -/
theorem secondary_v6_not_flagged :
    (sampleInvoker.Add (envBatch (.ok ⟨[samplePodDefault, samplePodSecondaryV6]⟩))
        emptyRuleset sampleCfg).outcome.ipv6Flag = some false ∧
    entryHasV6 samplePodSecondaryV6 = true ∧
    entryHasV6 samplePodDefault = false := by
  refine ⟨by decide, by decide, by decide⟩

theorem defaultBlock_ipv6 (st : LoopState) (info : IPResultInfo) (ncgw : Option IPAddr)
    (ipnet : GoIPNet) (ar : IPAMAddResult) (dr : List CNIRoute)
    (h : defaultBlock st info ncgw ipnet = .ok (ar, dr)) :
    ar.ipv6Enabled = (st.addResult.ipv6Enabled ||
      (match parseIP info.podIPAddress with
       | some ip => !ip.isV4
       | none => false)) := by
  simp only [defaultBlock] at h
  cases hp : parseIP info.podIPAddress with
  | none =>
    simp only [hp] at h
    simp only [Except.ok.injEq, Prod.mk.injEq] at h
    simp [← h.1]
  | some ip2 =>
    simp only [hp] at h
    cases hr : getRoutes info.routes with
    | error e => simp [hr] at h
    | ok rts =>
      simp only [hr, Except.ok.injEq, Prod.mk.injEq] at h
      rw [← h.1]
      by_cases hv : ip2.isV4 = true <;> simp [hv]

theorem processPodIPInfo_ipv6 (invoker : CNSIPAMInvoker) (rs : Ruleset) (st : LoopState)
    (p : PodIpInfo) (st1 : LoopState) (h : processPodIPInfo invoker rs st p = .ok st1) :
    st1.addResult.ipv6Enabled = (st.addResult.ipv6Enabled || entryIsV6Default p) := by
  by_cases hA : (mkIPResultInfo p).addressType = cnsSecondary
  · have hA' : p.addressType = cnsSecondary := by simpa [mkIPResultInfo] using hA
    simp only [processPodIPInfo, if_pos hA] at h
    cases hip : podIPConfigGetIPNet p.podIPConfig with
    | none => simp [hip] at h
    | some pr =>
      obtain ⟨prip, prnet⟩ := pr
      cases hmac : parseMAC (mkIPResultInfo p).macAddress with
      | none => simp [hip, hmac] at h
      | some mac =>
        cases hrts : getRoutes (mkIPResultInfo p).routes with
        | error e => simp [hip, hmac, hrts] at h
        | ok rts =>
          simp only [hip, hmac, hrts, StepResult.ok.injEq] at h
          rw [← h]
          simp [entryIsV6Default, hA']
  · have hA' : ¬p.addressType = cnsSecondary := fun hc => hA (by simp [mkIPResultInfo, hc])
    have hbeq : (p.addressType == cnsSecondary) = false := beq_eq_false_iff_ne.mpr hA'
    simp only [processPodIPInfo, if_neg hA, defaultBranch] at h
    cases hc : parseCIDR ((mkIPResultInfo p).podIPAddress ++ "/" ++
        toString (mkIPResultInfo p).ncSubnetPrefixLength) with
    | none => simp [hc] at h
    | some pr =>
      obtain ⟨cip, cnet⟩ := pr
      cases hgwE : ncGatewayOf invoker (mkIPResultInfo p) cnet with
      | error e => simp [hc, hgwE] at h
      | ok ncgw =>
        cases hblk : defaultBlock st (mkIPResultInfo p) ncgw ⟨cip, cnet.maskLen⟩ with
        | error e => simp [hc, hgwE, hblk] at h
        | ok ardr =>
          obtain ⟨ar, dr⟩ := ardr
          have hArIpv6 := defaultBlock_ipv6 st (mkIPResultInfo p) ncgw ⟨cip, cnet.maskLen⟩
            ar dr hblk
          cases hh : parseCIDR (mkIPResultInfo p).hostSubnet with
          | none => simp [hc, hgwE, hblk, hh] at h
          | some hn =>
            obtain ⟨hni, hnn⟩ := hn
            by_cases hmode : invoker.ipamMode ≠ v4OverlayMode ∧
                invoker.ipamMode ≠ dualStackOverlayMode ∧ invoker.ipamMode ≠ overlayMode
            · cases hsho : setHostOptions rs cnet (snatOptions st.options (mkIPResultInfo p))
                  (mkIPResultInfo p) with
              | error e => simp [hc, hgwE, hblk, hh, hmode, hsho] at h
              | ok opts1 =>
                simp only [hc, hgwE, hblk, hh, if_pos hmode, hsho,
                  StepResult.ok.injEq] at h
                rw [← h]
                simp only [hArIpv6]
                simp [entryIsV6Default, mkIPResultInfo, hbeq]
            · simp only [hc, hgwE, hblk, hh, if_neg hmode, StepResult.ok.injEq] at h
              rw [← h]
              simp only [hArIpv6]
              simp [entryIsV6Default, mkIPResultInfo, hbeq]

theorem processLoop_ipv6 (invoker : CNSIPAMInvoker) (rs : Ruleset) (ps : List PodIpInfo) :
    ∀ st st', processLoop invoker rs st ps = .ok st' →
      st'.addResult.ipv6Enabled =
        (st.addResult.ipv6Enabled || ps.any entryIsV6Default) := by
  induction ps with
  | nil =>
    intro st st' h
    cases h
    simp
  | cons p rest ih =>
    intro st st' h
    rw [processLoop] at h
    cases hp : processPodIPInfo invoker rs st p with
    | fail e o c => rw [hp] at h; simp at h
    | ok st1 =>
      rw [hp] at h
      rw [ih st1 st' h, processPodIPInfo_ipv6 invoker rs st p st1 hp]
      simp [Bool.or_assoc]

/-- The response-processing continuation preserves the loop's ipv6
characterisation, whatever the trace it starts from. -/
theorem addWithResponse_ipv6 (invoker : CNSIPAMInvoker) (rs : Ruleset)
    (cfg : IPAMAddConfig) (resp : IPConfigsResponse) (cs : List CallEvent) (b : Bool)
    (hok : (addWithResponse invoker rs cfg resp cs).outcome.ipv6Flag = some b) :
    b = resp.podIPInfo.any entryIsV6Default := by
  cases hp : processLoop invoker rs ⟨cfg.options, emptyIPAMAddResult, false, [],
      cs⟩ resp.podIPInfo with
  | fail e o c =>
    simp [addWithResponse, hp, AddOutcome.ipv6Flag] at hok
  | ok st =>
    have hloop := processLoop_ipv6 invoker rs resp.podIPInfo _ st hp
    simp only [addWithResponse, hp] at hok
    cases hq : st.addResult.defaultCniResult.ipResult with
    | none => simp [hq, AddOutcome.ipv6Flag] at hok
    | some ipr =>
      simp only [hq, AddOutcome.ipv6Flag, Option.some.injEq] at hok
      rw [← hok]
      simpa [emptyIPAMAddResult, emptyCNIResult] using hloop

/-- C3 as amended: for every remote Add that returns success — whether
served by the batch API or, on the UnsupportedAPI fallback, by the
singleton API — the ipv6-enabled flag is true iff at least one
default-type (non-secondary) allocation among the processed
pod-IP-infos has an IPv6 pod address; secondary-type IPv6 allocations
do not set the flag. -/
theorem ipv6Enabled_iff_default_v6 :
    (∀ (invoker : CNSIPAMInvoker) (env : CNSEnv) (rs : Ruleset) (cfg : IPAMAddConfig)
       (a : CNIArgs) (resp : IPConfigsResponse) (b : Bool),
      cfg.args = some a → env.requestIPs = .ok resp →
      (invoker.Add env rs cfg).outcome.ipv6Flag = some b →
      b = resp.podIPInfo.any entryIsV6Default) ∧
    (∀ (invoker : CNSIPAMInvoker) (env : CNSEnv) (rs : Ruleset) (cfg : IPAMAddConfig)
       (a : CNIArgs) (pod : PodIpInfo) (b : Bool),
      cfg.args = some a → env.requestIPs = .error .unsupportedAPI →
      env.requestIPAddress = .ok pod →
      (invoker.Add env rs cfg).outcome.ipv6Flag = some b →
      b = [pod].any entryIsV6Default) := by
  constructor
  · intro invoker env rs cfg a resp b hargs hb hok
    have hAdd : invoker.Add env rs cfg = addWithResponse invoker rs cfg resp
        [.requestIPs] := by
      simp [CNSIPAMInvoker.Add, hargs, hb]
    rw [hAdd] at hok
    exact addWithResponse_ipv6 invoker rs cfg resp [.requestIPs] b hok
  · intro invoker env rs cfg a pod b hargs hb hs hok
    have hAdd : invoker.Add env rs cfg = addWithResponse invoker rs cfg ⟨[pod]⟩
        [.requestIPs, .requestIPAddress] := by
      simp [CNSIPAMInvoker.Add, hargs, hb, hs, IsUnsupportedAPI]
    rw [hAdd] at hok
    exact addWithResponse_ipv6 invoker rs cfg ⟨[pod]⟩ [.requestIPs, .requestIPAddress] b hok

/-- A fully parseable IPv6 default-type allocation. -/
def samplePodDefaultV6 : PodIpInfo :=
  { podIPConfig := ⟨"fc00::2", 120⟩
    networkContainerPrimaryIPConfig := ⟨⟨"fc00::", 120⟩, "fe80::1"⟩
    hostPrimaryIPInfo := sampleHostInfo
    addressType := ""
    macAddress := ""
    isDefaultInterface := false
    routes := [] }

/-- Witness for C3's amended statement on both API paths: the mixed
default-v4 / secondary-v6 batch response yields flag false, matching
the absence of a v6 default allocation, and a singleton-fallback v6
default yields flag true. -/
theorem ipv6Enabled_iff_default_v6_witness :
    false = ([samplePodDefault, samplePodSecondaryV6].any entryIsV6Default) ∧
    true = ([samplePodDefaultV6].any entryIsV6Default) :=
  ⟨ipv6Enabled_iff_default_v6.1 sampleInvoker
     (envBatch (.ok ⟨[samplePodDefault, samplePodSecondaryV6]⟩)) emptyRuleset sampleCfg
     sampleArgs ⟨[samplePodDefault, samplePodSecondaryV6]⟩ false rfl rfl (by decide),
   ipv6Enabled_iff_default_v6.2 sampleInvoker
     ⟨.error .unsupportedAPI, .ok samplePodDefaultV6, .ok (), .ok ()⟩ emptyRuleset sampleCfg
     sampleArgs samplePodDefaultV6 true rfl rfl rfl (by decide)⟩

end AzureCNI
